import Mathlib

/-!
# Verification of the StochasticSEATIRD epidemic-simulation core

Shallow embedding of `src/models/disease/StochasticSEATIRD.cpp` (plus the
narrow contracts of its collaborators given in the design document, where the
collaborator sources are not part of the file set).  Population counts are
non-negative integers stored as doubles in the C++ code; here a variable slice
is a map to `ℤ`, and double arithmetic on parameters (adherence, capacity,
effectiveness, rates) is modelled exactly over `ℚ`.  The C++ cast `int(x)`
(truncation toward zero) is modelled by `cppInt`.
-/

namespace PanFlu

/-- Stratum of the population: `(age group, risk group, vaccinated group)`,
with the dimensions `5 × 2 × 2` fixed in `StochasticSEATIRD.cpp`
(`numAgeGroups_ = 5`, `numRiskGroups_ = 2`, `numVaccinatedGroups_ = 2`). -/
structure Stratum where
  age : Fin 5
  risk : Fin 2
  vax : Fin 2
deriving DecidableEq, Repr

/-- The packaging of a stratum as a triple of indices. -/
def stratumEquiv : (Fin 5 × Fin 2) × Fin 2 ≃ Stratum where
  toFun := fun p => ⟨p.1.1, p.1.2, p.2⟩
  invFun := fun s => ((s.age, s.risk), s.vax)
  left_inv := fun _ => rfl
  right_inv := fun _ => rfl

instance : Fintype Stratum := Fintype.ofEquiv _ stratumEquiv

/-- The variables of the model: the seven disease compartments, the population,
and the treatment counters created in the `StochasticSEATIRD` constructor
(`treated`, `treated (daily)`, `treated (ineffective daily)`,
`vaccinated (daily)`). -/
inductive SEATIRDVar where
  | susceptible
  | exposed
  | asymptomatic
  | treatable
  | infectious
  | recovered
  | deceased
  | population
  | treated
  | treatedDaily
  | treatedIneffectiveDaily
  | vaccinatedDaily
deriving DecidableEq, Repr, Fintype

open SEATIRDVar

/-- One node's slice of the variables array at the mutable frontier `t+1`:
for each variable and each complete stratum, an integer count. -/
def NodeState : Type := SEATIRDVar → Stratum → ℤ

/-- C++ cast from `double` to `int`: truncation toward zero. -/
def cppInt (q : ℚ) : ℤ := if 0 ≤ q then ⌊q⌋ else -⌊-q⌋

/-- Add `k` to variable `v` at stratum `s`, leaving everything else unchanged
(the elementary write of the variables array). -/
def addAt (v : SEATIRDVar) (s : Stratum) (k : ℤ) (V : NodeState) : NodeState :=
  fun w t => if w = v ∧ t = s then V w t + k else V w t

/-- Modelled from the spec: `EpidemicSimulation::transition` (base class, not
among the provided sources) atomically decrements `from_var` and increments
`to_var` by `n` at a fixed `(t, node, stratum)`, clamping to the available
`from_var` count when `n` exceeds it. -/
def transition (n : ℤ) (src dst : SEATIRDVar) (s : Stratum) (V : NodeState) : NodeState :=
  let actual := min n (V src s)
  addAt dst s actual (addAt src s (-actual) V)

/-- Modelled from the spec: the variable moves of `EpidemicSimulation::expose`
(base class, not among the provided sources): a clamped transition of `n`
individuals from `susceptible` to `exposed`; the schedules it creates do not
touch the variables array. -/
def exposeVars (n : ℤ) (s : Stratum) (V : NodeState) : NodeState :=
  transition n susceptible exposed s V

/-- The seven disease compartments, in the order used throughout the source. -/
def diseaseCompartments : List SEATIRDVar :=
  [susceptible, exposed, asymptomatic, treatable, infectious, recovered, deceased]

/-- Sum of the seven disease compartments over all strata of a node. -/
def compartmentTotal (V : NodeState) : ℤ :=
  ∑ s : Stratum, (diseaseCompartments.map (fun v => V v s)).sum

/-- Sum of the `population` variable over all strata of a node. -/
def populationTotal (V : NodeState) : ℤ :=
  ∑ s : Stratum, V population s

/-- The conservation invariant of the data model: at the frontier of a node,
the disease compartments sum to the population. -/
def Conserved (V : NodeState) : Prop :=
  compartmentTotal V = populationTotal V

theorem addAt_apply (v : SEATIRDVar) (s : Stratum) (k : ℤ) (V : NodeState)
    (w : SEATIRDVar) (t : Stratum) :
    addAt v s k V w t = if w = v ∧ t = s then V w t + k else V w t := rfl

theorem compartmentTotal_addAt (v : SEATIRDVar) (s : Stratum) (k : ℤ) (V : NodeState) :
    compartmentTotal (addAt v s k V) =
      compartmentTotal V + (if v ∈ diseaseCompartments then k else 0) := by
  have hpt : ∀ t : Stratum,
      (diseaseCompartments.map (fun w => addAt v s k V w t)).sum =
        (diseaseCompartments.map (fun w => V w t)).sum +
          (if t = s then (if v ∈ diseaseCompartments then k else 0) else 0) := by
    intro t
    by_cases ht : t = s
    · subst ht
      cases v <;> simp [diseaseCompartments, addAt] <;> ring
    · have hw : ∀ w, addAt v s k V w t = V w t := by
        intro w
        simp [addAt, ht]
      simp [hw, ht]
  unfold compartmentTotal
  calc ∑ t : Stratum, (diseaseCompartments.map (fun w => addAt v s k V w t)).sum
      = ∑ t : Stratum, ((diseaseCompartments.map (fun w => V w t)).sum +
          (if t = s then (if v ∈ diseaseCompartments then k else 0) else 0)) :=
        Finset.sum_congr rfl (fun t _ => hpt t)
    _ = _ := by
        rw [Finset.sum_add_distrib, Finset.sum_ite_eq' Finset.univ s]
        simp

theorem populationTotal_addAt (v : SEATIRDVar) (s : Stratum) (k : ℤ) (V : NodeState) :
    populationTotal (addAt v s k V) =
      populationTotal V + (if v = population then k else 0) := by
  have hpt : ∀ t : Stratum,
      addAt v s k V population t =
        V population t + (if t = s then (if v = population then k else 0) else 0) := by
    intro t
    by_cases ht : t = s
    · subst ht
      by_cases hv : v = population
      · subst hv
        simp [addAt]
      · simp [addAt, hv, Ne.symm hv]
    · simp [addAt, ht]
  unfold populationTotal
  calc ∑ t : Stratum, addAt v s k V population t
      = ∑ t : Stratum, (V population t +
          (if t = s then (if v = population then k else 0) else 0)) :=
        Finset.sum_congr rfl (fun t _ => hpt t)
    _ = _ := by
        rw [Finset.sum_add_distrib, Finset.sum_ite_eq' Finset.univ s]
        simp

theorem conserved_transition (n : ℤ) (src dst : SEATIRDVar) (s : Stratum) (V : NodeState)
    (hsrc : src ∈ diseaseCompartments) (hdst : dst ∈ diseaseCompartments)
    (hV : Conserved V) : Conserved (transition n src dst s V) := by
  have hsrcp : src ≠ population := by
    intro h
    subst h
    simp [diseaseCompartments] at hsrc
  have hdstp : dst ≠ population := by
    intro h
    subst h
    simp [diseaseCompartments] at hdst
  unfold Conserved transition at *
  rw [compartmentTotal_addAt, compartmentTotal_addAt,
    populationTotal_addAt, populationTotal_addAt]
  simp [hsrc, hdst, hsrcp, hdstp, hV]

theorem cppInt_of_nonneg {q : ℚ} (h : 0 ≤ q) : cppInt q = ⌊q⌋ := by
  simp [cppInt, h]

theorem cppInt_le_self {q : ℚ} (h : 0 ≤ q) : (cppInt q : ℚ) ≤ q := by
  rw [cppInt_of_nonneg h]
  exact Int.floor_le q

theorem cppInt_nonneg {q : ℚ} (h : 0 ≤ q) : 0 ≤ cppInt q := by
  rw [cppInt_of_nonneg h]
  exact Int.floor_nonneg.mpr h

theorem floor_nonpos_iff {q : ℚ} : ⌊q⌋ ≤ 0 ↔ q < 1 := by
  constructor
  · intro h
    have := Int.floor_lt.mp (show ⌊q⌋ < (1 : ℤ) by omega)
    simpa using this
  · intro h
    have : ⌊q⌋ < (1 : ℤ) := Int.floor_lt.mpr (by simpa using h)
    omega

theorem cppInt_nonpos_iff {q : ℚ} : cppInt q ≤ 0 ↔ q < 1 := by
  unfold cppInt
  by_cases h : 0 ≤ q
  · simp only [h, if_true]
    exact floor_nonpos_iff
  · push_neg at h
    simp only [not_le.mpr h, if_false]
    constructor
    · intro _
      linarith
    · intro _
      have : 0 ≤ ⌊-q⌋ := Int.floor_nonneg.mpr (by linarith)
      omega

theorem cppInt_pos_iff {q : ℚ} : 0 < cppInt q ↔ 1 ≤ q := by
  rw [← not_le, cppInt_nonpos_iff, not_lt]

/-- The per-node mutable state touched by the intervention layer: the node's
slice of the variables array at the frontier `t+1`, and the node's antiviral
and vaccine stockpiles at `t+1` (the `Stockpile` class is not among the
provided sources; modelled from the spec as a counter that
`applyAntivirals...`/`applyVaccines...` read with `getNum` and debit with
`setNum`). -/
structure NodeSim where
  V : NodeState
  stockpileAntivirals : ℤ
  stockpileVaccines : ℤ

/-- The parameters consulted by `applyAntiviralsToPriorityGroupSelections`
(read from the global `Parameters` object). -/
structure AntiviralParams where
  effectiveness : ℚ
  adherence : ℚ
  capacity : ℚ

/-- Total adherence-eligible treatable population of the selection:
`getValue("treatable", t+1, node, S) - getValue("treated (ineffective daily)", t+1, node, S)`.
The selection is modelled from the spec as the set of complete strata produced
by `PriorityGroupSelections::getStratificationValuesSet` (the class is not
among the provided sources), each stratum listed once. -/
def avTotalTreatable (sel : Finset Stratum) (V : NodeState) : ℤ :=
  ∑ s ∈ sel, (V treatable s - V treatedIneffectiveDaily s)

/-- Pro-rata share of the stockpile for one stratum:
`numberTreated(a,r,v) = int(adherentTreatable(a,r,v) / totalAdherentTreatable * stockpileAmountUsed)`
with `adherentTreatable = antiviralAdherence * treatable`, and zero when the
stratum's adherent-treatable population is non-positive. -/
def avNumberTreated (adherence totalAdherent : ℚ) (used : ℤ) (V : NodeState) (s : Stratum) : ℤ :=
  let t : ℤ := V treatable s - V treatedIneffectiveDaily s
  if t ≤ 0 then 0
  else cppInt (adherence * (t : ℚ) / totalAdherent * (used : ℚ))

/-- The four variable updates applied to one stratum that received `nt`
courses of which `ne` were effective: transition `ne` from `treatable` to
`recovered`, then bump `treated (daily)`, `treated (ineffective daily)` and
`treated` (source lines 596-606). -/
def avStratumUpdate (nt ne : ℤ) (s : Stratum) (V : NodeState) : NodeState :=
  addAt treated s nt
    (addAt treatedIneffectiveDaily s (nt - ne)
      (addAt treatedDaily s nt
        (transition ne treatable recovered s V)))

/-- The pro-rata distribution loop over the strata of the selection.  Strata
are pairwise distinct, every per-stratum quantity is computed from the state
as it stood before the loop, and an iteration only writes its own stratum, so
the loop is order-independent and modelled pointwise. -/
def avDistribute (p : AntiviralParams) (sel : Finset Stratum) (totalAdherent : ℚ)
    (used : ℤ) (V : NodeState) : NodeState :=
  fun v s =>
    let nt := avNumberTreated p.adherence totalAdherent used V s
    if s ∈ sel ∧ 0 < nt then
      avStratumUpdate nt (cppInt (p.effectiveness * (nt : ℚ))) s V v s
    else V v s

/-- One call of `StochasticSEATIRD::applyAntiviralsToPriorityGroupSelections`
restricted to a single node (the function loops this body over all nodes; the
per-node bodies touch disjoint state).  The schedule-cancellation walk at the
end of the body only mutates schedules, not the variables array or the
stockpile, and is modelled separately. -/
def applyAntiviralsNode (p : AntiviralParams) (sel : Finset Stratum) (st : NodeSim) : NodeSim :=
  let stockpileAmount := st.stockpileAntivirals
  if stockpileAmount = 0 then st
  else
    let totalTreatable : ℤ := avTotalTreatable sel st.V
    if totalTreatable ≤ 0 then st
    else
      let totalAdherentTreatable : ℚ := p.adherence * (totalTreatable : ℚ)
      let used1 : ℤ := min stockpileAmount (cppInt totalAdherentTreatable)
      let capacityTotalPopulation : ℤ := ∑ s : Stratum, st.V population s
      let todayUsedCapacity : ℤ := ∑ s : Stratum, st.V treatedDaily s
      let used : ℤ := min used1
        (cppInt (p.capacity * (capacityTotalPopulation : ℚ) - (todayUsedCapacity : ℚ)))
      if used ≤ 0 then st
      else
        { st with
          stockpileAntivirals := stockpileAmount - used
          V := avDistribute p sel totalAdherentTreatable used st.V }

/-- The amount of antivirals the spec says a node uses:
`min(stockpile, ⌊adherence · T⌋, ⌊capacity · pop_total − today_used_capacity⌋)`
(stated with mathematical floors, following the spec's words; to be compared
with the truncating casts of the source). -/
def specAntiviralUsed (p : AntiviralParams) (sel : Finset Stratum) (st : NodeSim) : ℤ :=
  min (min st.stockpileAntivirals ⌊p.adherence * ((avTotalTreatable sel st.V : ℤ) : ℚ)⌋)
    ⌊p.capacity * ((∑ s : Stratum, st.V population s : ℤ) : ℚ) -
      ((∑ s : Stratum, st.V treatedDaily s : ℤ) : ℚ)⌋

/-- C5.  Antiviral allocation: with a non-empty stockpile and a positive
adherent-treatable population over the selection, the node's stockpile is
debited by exactly `min(stockpile, ⌊adherence·T⌋, ⌊capacity·pop − today_used⌋)`
when that minimum is positive, and when the minimum is non-positive the call
leaves the node state entirely unchanged. -/
theorem applyAntiviralsNode_used_spec (p : AntiviralParams) (sel : Finset Stratum)
    (st : NodeSim) (h1 : 0 < st.stockpileAntivirals) (h2 : 0 < avTotalTreatable sel st.V) :
    (0 < specAntiviralUsed p sel st →
      (applyAntiviralsNode p sel st).stockpileAntivirals =
        st.stockpileAntivirals - specAntiviralUsed p sel st) ∧
    (specAntiviralUsed p sel st ≤ 0 → applyAntiviralsNode p sel st = st) := by
  have hstock : ¬ st.stockpileAntivirals = 0 := by omega
  have htt : ¬ avTotalTreatable sel st.V ≤ 0 := by omega
  set T : ℤ := avTotalTreatable sel st.V with hT
  set capPop : ℤ := ∑ s : Stratum, st.V population s with hcap
  set today : ℤ := ∑ s : Stratum, st.V treatedDaily s with htoday
  set adh : ℚ := p.adherence * (T : ℚ) with hadh
  set slack : ℚ := p.capacity * (capPop : ℚ) - (today : ℚ) with hslack
  have hspec : specAntiviralUsed p sel st =
      min (min st.stockpileAntivirals ⌊adh⌋) ⌊slack⌋ := rfl
  have hrun : applyAntiviralsNode p sel st =
      (if min (min st.stockpileAntivirals (cppInt adh)) (cppInt slack) ≤ 0 then st
       else
        { st with
          stockpileAntivirals :=
            st.stockpileAntivirals - min (min st.stockpileAntivirals (cppInt adh)) (cppInt slack)
          V := avDistribute p sel adh
            (min (min st.stockpileAntivirals (cppInt adh)) (cppInt slack)) st.V }) := by
    unfold applyAntiviralsNode
    simp only [hstock, htt, if_false, ← hT, ← hcap, ← htoday, ← hadh, ← hslack]
  constructor
  · intro hpos
    rw [hspec] at hpos
    have hadhpos : 0 < ⌊adh⌋ := lt_of_lt_of_le hpos (le_trans (min_le_left _ _) (min_le_right _ _))
    have hslackpos : 0 < ⌊slack⌋ := lt_of_lt_of_le hpos (min_le_right _ _)
    have hadh0' : (0 : ℚ) ≤ adh := by
      by_contra hc
      push_neg at hc
      have : ⌊adh⌋ ≤ 0 := floor_nonpos_iff.mpr (by linarith)
      omega
    have hslack0 : (0 : ℚ) ≤ slack := by
      by_contra hc
      push_neg at hc
      have : ⌊slack⌋ ≤ 0 := floor_nonpos_iff.mpr (by linarith)
      omega
    rw [hrun, cppInt_of_nonneg hadh0', cppInt_of_nonneg hslack0]
    have hnle : ¬ min (min st.stockpileAntivirals ⌊adh⌋) ⌊slack⌋ ≤ 0 := by omega
    simp only [hnle, if_false, hspec]
  · intro hle
    rw [hspec] at hle
    have hused : min (min st.stockpileAntivirals (cppInt adh)) (cppInt slack) ≤ 0 := by
      rcases le_or_lt st.stockpileAntivirals 0 with h | h
      · omega
      · rcases le_or_lt ⌊adh⌋ 0 with ha | ha
        · have : cppInt adh ≤ 0 := cppInt_nonpos_iff.mpr (floor_nonpos_iff.mp ha)
          omega
        · have hs : ⌊slack⌋ ≤ 0 := by omega
          have : cppInt slack ≤ 0 := cppInt_nonpos_iff.mpr (floor_nonpos_iff.mp hs)
          omega
    rw [hrun]
    simp only [hused, if_true]

/-- Guard-by-guard unfolding of `applyAntiviralsNode`. -/
theorem applyAntiviralsNode_eq (p : AntiviralParams) (sel : Finset Stratum) (st : NodeSim) :
    applyAntiviralsNode p sel st =
      if st.stockpileAntivirals = 0 then st
      else if avTotalTreatable sel st.V ≤ 0 then st
      else if min (min st.stockpileAntivirals
            (cppInt (p.adherence * (avTotalTreatable sel st.V : ℚ))))
          (cppInt (p.capacity * ((∑ s : Stratum, st.V population s : ℤ) : ℚ) -
            ((∑ s : Stratum, st.V treatedDaily s : ℤ) : ℚ))) ≤ 0 then st
      else
        { st with
          stockpileAntivirals := st.stockpileAntivirals -
            min (min st.stockpileAntivirals
              (cppInt (p.adherence * (avTotalTreatable sel st.V : ℚ))))
            (cppInt (p.capacity * ((∑ s : Stratum, st.V population s : ℤ) : ℚ) -
              ((∑ s : Stratum, st.V treatedDaily s : ℤ) : ℚ)))
          V := avDistribute p sel (p.adherence * (avTotalTreatable sel st.V : ℚ))
            (min (min st.stockpileAntivirals
              (cppInt (p.adherence * (avTotalTreatable sel st.V : ℚ))))
            (cppInt (p.capacity * ((∑ s : Stratum, st.V population s : ℤ) : ℚ) -
              ((∑ s : Stratum, st.V treatedDaily s : ℤ) : ℚ)))) st.V } := rfl

theorem avStratumUpdate_treatable (nt ne : ℤ) (s : Stratum) (V : NodeState) :
    avStratumUpdate nt ne s V treatable s =
      V treatable s - min ne (V treatable s) := by
  simp [avStratumUpdate, transition, addAt]
  ring

theorem avStratumUpdate_recovered (nt ne : ℤ) (s : Stratum) (V : NodeState) :
    avStratumUpdate nt ne s V recovered s =
      V recovered s + min ne (V treatable s) := by
  simp [avStratumUpdate, transition, addAt]

theorem avStratumUpdate_treatedDaily (nt ne : ℤ) (s : Stratum) (V : NodeState) :
    avStratumUpdate nt ne s V treatedDaily s = V treatedDaily s + nt := by
  simp [avStratumUpdate, transition, addAt]

theorem avStratumUpdate_treatedIneffectiveDaily (nt ne : ℤ) (s : Stratum) (V : NodeState) :
    avStratumUpdate nt ne s V treatedIneffectiveDaily s =
      V treatedIneffectiveDaily s + (nt - ne) := by
  simp [avStratumUpdate, transition, addAt]

theorem avStratumUpdate_population (nt ne : ℤ) (s : Stratum) (V : NodeState) (t : Stratum) :
    avStratumUpdate nt ne s V population t = V population t := by
  simp [avStratumUpdate, transition, addAt]

theorem avStratumUpdate_of_ne (nt ne : ℤ) (s : Stratum) (V : NodeState)
    (v : SEATIRDVar) (t : Stratum) (ht : t ≠ s) :
    avStratumUpdate nt ne s V v t = V v t := by
  simp [avStratumUpdate, transition, addAt, ht]

theorem avDistribute_apply (p : AntiviralParams) (sel : Finset Stratum) (ta : ℚ)
    (used : ℤ) (V : NodeState) (v : SEATIRDVar) (s : Stratum) :
    avDistribute p sel ta used V v s =
      if s ∈ sel ∧ 0 < avNumberTreated p.adherence ta used V s then
        avStratumUpdate (avNumberTreated p.adherence ta used V s)
          (cppInt (p.effectiveness * (avNumberTreated p.adherence ta used V s : ℚ))) s V v s
      else V v s := rfl

theorem avNumberTreated_def (adherence ta : ℚ) (used : ℤ) (V : NodeState) (s : Stratum) :
    avNumberTreated adherence ta used V s =
      if V treatable s - V treatedIneffectiveDaily s ≤ 0 then 0
      else cppInt (adherence * ((V treatable s - V treatedIneffectiveDaily s : ℤ) : ℚ) / ta *
        (used : ℚ)) := rfl

theorem avNumberTreated_nonneg {adherence ta : ℚ} {used : ℤ} (V : NodeState) (s : Stratum)
    (ha : 0 ≤ adherence) (hta : 0 ≤ ta) (hu : 0 ≤ used) :
    0 ≤ avNumberTreated adherence ta used V s := by
  rw [avNumberTreated_def]
  by_cases h : V treatable s - V treatedIneffectiveDaily s ≤ 0
  · rw [if_pos h]
  · rw [if_neg h]
    have h0 : (0 : ℚ) ≤ ((V treatable s - V treatedIneffectiveDaily s : ℤ) : ℚ) := by
      push_neg at h
      exact_mod_cast h.le
    exact cppInt_nonneg (mul_nonneg (div_nonneg (mul_nonneg ha h0) hta) (by exact_mod_cast hu))

/-- Each daily-reset variable cleared at the start of `simulate()`
(source lines 137-139): `treated (daily)`, `treated (ineffective daily)` and
`vaccinated (daily)` are zeroed at `t+1` for every stratum before any
treatment pass runs. -/
def resetDailyCounters (st : NodeSim) : NodeSim :=
  { st with
    V := fun v s =>
      if v = treatedDaily ∨ v = treatedIneffectiveDaily ∨ v = vaccinatedDaily then 0
      else st.V v s }

/-- The sequence of antiviral treatment passes of one `simulate()` call:
first the user's priority group selections, then the `_ALL_` selection
(source lines 142-143), modelled as a fold over the list of selections. -/
def antiviralPasses (p : AntiviralParams) (sels : List (Finset Stratum)) (st : NodeSim) : NodeSim :=
  sels.foldl (fun acc sel => applyAntiviralsNode p sel acc) st

/-- Invariant carried across the antiviral passes of one day: non-negative
treatable counts, non-negative adherent-treatable slack, non-negative daily
counter, untouched population, daily total within capacity. -/
def AVInv (p : AntiviralParams) (pop0 : Stratum → ℤ) (st : NodeSim) : Prop :=
  (∀ s, 0 ≤ st.V treatable s) ∧
  (∀ s, 0 ≤ st.V treatable s - st.V treatedIneffectiveDaily s) ∧
  (∀ s, 0 ≤ st.V treatedDaily s) ∧
  (∀ s, st.V population s = pop0 s) ∧
  (((∑ s : Stratum, st.V treatedDaily s : ℤ) : ℚ) ≤
    p.capacity * ((∑ s : Stratum, pop0 s : ℤ) : ℚ))

theorem avInv_preserved (p : AntiviralParams) (pop0 : Stratum → ℤ) (sel : Finset Stratum)
    (st : NodeSim) (ha0 : 0 ≤ p.adherence) (ha1 : p.adherence ≤ 1)
    (hinv : AVInv p pop0 st) : AVInv p pop0 (applyAntiviralsNode p sel st) := by
  obtain ⟨h1, h2, h3, h4, h5⟩ := hinv
  rw [applyAntiviralsNode_eq]
  by_cases hs0 : st.stockpileAntivirals = 0
  · rw [if_pos hs0]
    exact ⟨h1, h2, h3, h4, h5⟩
  rw [if_neg hs0]
  by_cases htt : avTotalTreatable sel st.V ≤ 0
  · rw [if_pos htt]
    exact ⟨h1, h2, h3, h4, h5⟩
  rw [if_neg htt]
  set T : ℤ := avTotalTreatable sel st.V with hT
  set adh : ℚ := p.adherence * (T : ℚ) with hadh
  set slack : ℚ := p.capacity * ((∑ s : Stratum, st.V population s : ℤ) : ℚ) -
    ((∑ s : Stratum, st.V treatedDaily s : ℤ) : ℚ) with hslack
  set used : ℤ := min (min st.stockpileAntivirals (cppInt adh)) (cppInt slack) with hused
  by_cases hu : used ≤ 0
  · rw [if_pos hu]
    exact ⟨h1, h2, h3, h4, h5⟩
  rw [if_neg hu]
  have hupos : 0 < used := by omega
  have hub : used ≤ cppInt adh := le_trans (min_le_left _ _) (min_le_right _ _)
  have huc : used ≤ cppInt slack := min_le_right _ _
  have hadh1 : (1 : ℚ) ≤ adh := cppInt_pos_iff.mp (by omega)
  have hslack1 : (1 : ℚ) ≤ slack := cppInt_pos_iff.mp (by omega)
  have hadh0 : (0 : ℚ) < adh := lt_of_lt_of_le one_pos hadh1
  have husedQ_adh : (used : ℚ) ≤ adh :=
    le_trans (by exact_mod_cast hub) (cppInt_le_self (by linarith))
  have husedQ_slack : (used : ℚ) ≤ slack :=
    le_trans (by exact_mod_cast huc) (cppInt_le_self (by linarith))
  set nt : Stratum → ℤ := fun s => avNumberTreated p.adherence adh used st.V s with hnt
  have hntnonneg : ∀ s, 0 ≤ nt s := fun s =>
    avNumberTreated_nonneg st.V s ha0 hadh0.le hupos.le
  have hadjQ : ∀ s, (0 : ℚ) ≤ ((st.V treatable s - st.V treatedIneffectiveDaily s : ℤ) : ℚ) := by
    intro s
    exact_mod_cast h2 s
  have hnt_le_adj : ∀ s, nt s ≤ st.V treatable s - st.V treatedIneffectiveDaily s := by
    intro s
    show avNumberTreated p.adherence adh used st.V s ≤
      st.V treatable s - st.V treatedIneffectiveDaily s
    rw [avNumberTreated_def]
    by_cases hts : st.V treatable s - st.V treatedIneffectiveDaily s ≤ 0
    · rw [if_pos hts]
      exact h2 s
    · rw [if_neg hts]
      set adjQ : ℚ := ((st.V treatable s - st.V treatedIneffectiveDaily s : ℤ) : ℚ) with hadjq
      have hadjpos : (0 : ℚ) ≤ adjQ := hadjQ s
      have harg0 : (0 : ℚ) ≤ p.adherence * adjQ / adh * (used : ℚ) :=
        mul_nonneg (div_nonneg (mul_nonneg ha0 hadjpos) hadh0.le) (by exact_mod_cast hupos.le)
      have harg : p.adherence * adjQ / adh * (used : ℚ) ≤ adjQ := by
        have hfrac : (used : ℚ) / adh ≤ 1 := (div_le_one hadh0).mpr husedQ_adh
        have hre : p.adherence * adjQ / adh * (used : ℚ) =
            (p.adherence * adjQ) * ((used : ℚ) / adh) := by ring
        rw [hre]
        calc (p.adherence * adjQ) * ((used : ℚ) / adh)
            ≤ (p.adherence * adjQ) * 1 :=
              mul_le_mul_of_nonneg_left hfrac (mul_nonneg ha0 hadjpos)
          _ = p.adherence * adjQ := mul_one _
          _ ≤ 1 * adjQ := mul_le_mul_of_nonneg_right ha1 hadjpos
          _ = adjQ := one_mul _
      have hle : (cppInt (p.adherence * adjQ / adh * (used : ℚ)) : ℚ) ≤ adjQ :=
        le_trans (cppInt_le_self harg0) harg
      rw [hadjq] at hle
      exact_mod_cast hle
  have hntQ_le : ∀ s ∈ sel, ((if 0 < nt s then nt s else 0 : ℤ) : ℚ) ≤
      p.adherence * ((st.V treatable s - st.V treatedIneffectiveDaily s : ℤ) : ℚ) / adh *
        (used : ℚ) := by
    intro s _
    have hq0 : (0 : ℚ) ≤
        p.adherence * ((st.V treatable s - st.V treatedIneffectiveDaily s : ℤ) : ℚ) / adh *
          (used : ℚ) :=
      mul_nonneg (div_nonneg (mul_nonneg ha0 (hadjQ s)) hadh0.le) (by exact_mod_cast hupos.le)
    by_cases hp : 0 < nt s
    · rw [if_pos hp]
      have hts : ¬ st.V treatable s - st.V treatedIneffectiveDaily s ≤ 0 := by
        intro hcon
        have : nt s = 0 := by
          show avNumberTreated p.adherence adh used st.V s = 0
          rw [avNumberTreated_def, if_pos hcon]
        omega
      have : nt s = cppInt (p.adherence *
          ((st.V treatable s - st.V treatedIneffectiveDaily s : ℤ) : ℚ) / adh * (used : ℚ)) := by
        show avNumberTreated p.adherence adh used st.V s = _
        rw [avNumberTreated_def, if_neg hts]
      rw [this]
      exact cppInt_le_self hq0
    · rw [if_neg hp]
      simpa using hq0
  have hsum_q : ∑ s ∈ sel, (p.adherence *
      ((st.V treatable s - st.V treatedIneffectiveDaily s : ℤ) : ℚ) / adh * (used : ℚ)) =
        (used : ℚ) := by
    have hfactor : ∀ s, p.adherence *
        ((st.V treatable s - st.V treatedIneffectiveDaily s : ℤ) : ℚ) / adh * (used : ℚ) =
          ((st.V treatable s - st.V treatedIneffectiveDaily s : ℤ) : ℚ) *
            (p.adherence / adh * (used : ℚ)) := by
      intro s
      ring
    rw [Finset.sum_congr rfl (fun s _ => hfactor s), ← Finset.sum_mul]
    have hsumT : ∑ s ∈ sel, ((st.V treatable s - st.V treatedIneffectiveDaily s : ℤ) : ℚ) =
        (T : ℚ) := by
      rw [hT]
      unfold avTotalTreatable
      push_cast
      rfl
    rw [hsumT]
    rw [hadh]
    field_simp
    ring
  have hA_le : ((∑ s ∈ sel, (if 0 < nt s then nt s else 0) : ℤ) : ℚ) ≤ (used : ℚ) := by
    have : ((∑ s ∈ sel, (if 0 < nt s then nt s else 0) : ℤ) : ℚ) =
        ∑ s ∈ sel, ((if 0 < nt s then nt s else 0 : ℤ) : ℚ) := by
      push_cast
      rfl
    rw [this, ← hsum_q]
    exact Finset.sum_le_sum hntQ_le
  -- pointwise description of the distributed state
  set ne' : Stratum → ℤ := fun s => cppInt (p.effectiveness * (nt s : ℚ)) with hne
  have hD : ∀ v s, avDistribute p sel adh used st.V v s =
      if s ∈ sel ∧ 0 < nt s then avStratumUpdate (nt s) (ne' s) s st.V v s
      else st.V v s := fun v s => rfl
  refine ⟨?_, ?_, ?_, ?_, ?_⟩
  · intro s
    show 0 ≤ avDistribute p sel adh used st.V treatable s
    rw [hD]
    by_cases h : s ∈ sel ∧ 0 < nt s
    · rw [if_pos h, avStratumUpdate_treatable]
      have := min_le_right (ne' s) (st.V treatable s)
      omega
    · rw [if_neg h]
      exact h1 s
  · intro s
    show 0 ≤ avDistribute p sel adh used st.V treatable s -
      avDistribute p sel adh used st.V treatedIneffectiveDaily s
    rw [hD, hD]
    by_cases h : s ∈ sel ∧ 0 < nt s
    · rw [if_pos h, if_pos h, avStratumUpdate_treatable, avStratumUpdate_treatedIneffectiveDaily]
      have hm := min_le_left (ne' s) (st.V treatable s)
      have := hnt_le_adj s
      omega
    · rw [if_neg h, if_neg h]
      exact h2 s
  · intro s
    show 0 ≤ avDistribute p sel adh used st.V treatedDaily s
    rw [hD]
    by_cases h : s ∈ sel ∧ 0 < nt s
    · rw [if_pos h, avStratumUpdate_treatedDaily]
      have := h3 s
      have := h.2
      omega
    · rw [if_neg h]
      exact h3 s
  · intro s
    show avDistribute p sel adh used st.V population s = pop0 s
    rw [hD]
    by_cases h : s ∈ sel ∧ 0 < nt s
    · rw [if_pos h, avStratumUpdate_population]
      exact h4 s
    · rw [if_neg h]
      exact h4 s
  · show ((∑ s : Stratum, avDistribute p sel adh used st.V treatedDaily s : ℤ) : ℚ) ≤
      p.capacity * ((∑ s : Stratum, pop0 s : ℤ) : ℚ)
    have hpt : ∀ s, avDistribute p sel adh used st.V treatedDaily s =
        st.V treatedDaily s + (if s ∈ sel ∧ 0 < nt s then nt s else 0) := by
      intro s
      rw [hD]
      by_cases h : s ∈ sel ∧ 0 < nt s
      · rw [if_pos h, if_pos h, avStratumUpdate_treatedDaily]
      · rw [if_neg h, if_neg h, add_zero]
    have hsplit : (∑ s : Stratum, avDistribute p sel adh used st.V treatedDaily s) =
        (∑ s : Stratum, st.V treatedDaily s) +
          ∑ s ∈ sel, (if 0 < nt s then nt s else 0) := by
      rw [Finset.sum_congr rfl (fun s _ => hpt s), Finset.sum_add_distrib]
      congr 1
      have hres : ∀ s : Stratum, (if s ∈ sel ∧ 0 < nt s then nt s else 0) =
          (if s ∈ sel then (if 0 < nt s then nt s else 0) else 0) := by
        intro s
        by_cases hm : s ∈ sel <;> by_cases hp : 0 < nt s <;> simp [hm, hp]
      rw [Finset.sum_congr rfl (fun s _ => hres s), Finset.sum_ite_mem, Finset.univ_inter]
    rw [hsplit]
    have hpopsum : (∑ s : Stratum, st.V population s) = ∑ s : Stratum, pop0 s :=
      Finset.sum_congr rfl (fun s _ => h4 s)
    have hslack' : (used : ℚ) ≤ p.capacity * ((∑ s : Stratum, pop0 s : ℤ) : ℚ) -
        ((∑ s : Stratum, st.V treatedDaily s : ℤ) : ℚ) := by
      rw [hslack, hpopsum] at husedQ_slack
      exact husedQ_slack
    push_cast
    push_cast at hA_le hslack'
    linarith

theorem avInv_antiviralPasses (p : AntiviralParams) (pop0 : Stratum → ℤ)
    (sels : List (Finset Stratum)) (st : NodeSim)
    (ha0 : 0 ≤ p.adherence) (ha1 : p.adherence ≤ 1)
    (hinv : AVInv p pop0 st) : AVInv p pop0 (antiviralPasses p sels st) := by
  induction sels generalizing st with
  | nil => exact hinv
  | cons sel rest ih =>
    exact ih (applyAntiviralsNode p sel st) (avInv_preserved p pop0 sel st ha0 ha1 hinv)

/-- C6.  Capacity bound: starting from the daily reset performed by
`simulate()`, however many antiviral passes run within the day, the total of
`treated (daily)` over all strata never exceeds
`antiviralCapacity · population(t+1, node)`; in particular with capacity 0 the
daily treated count is 0 in every stratum. -/
theorem antiviralPasses_capacity_bound (p : AntiviralParams) (sels : List (Finset Stratum))
    (st : NodeSim) (hcap : 0 ≤ p.capacity) (ha0 : 0 ≤ p.adherence) (ha1 : p.adherence ≤ 1)
    (htr : ∀ s, 0 ≤ st.V treatable s) (hpop : ∀ s, 0 ≤ st.V population s) :
    (((∑ s : Stratum,
        (antiviralPasses p sels (resetDailyCounters st)).V treatedDaily s : ℤ) : ℚ) ≤
      p.capacity * ((∑ s : Stratum,
        (antiviralPasses p sels (resetDailyCounters st)).V population s : ℤ) : ℚ)) ∧
    (p.capacity = 0 →
      ∀ s, (antiviralPasses p sels (resetDailyCounters st)).V treatedDaily s = 0) := by
  have hreset : AVInv p (fun s => st.V population s) (resetDailyCounters st) := by
    refine ⟨?_, ?_, ?_, ?_, ?_⟩
    · intro s
      simpa [resetDailyCounters] using htr s
    · intro s
      simpa [resetDailyCounters] using htr s
    · intro s
      simp [resetDailyCounters]
    · intro s
      simp [resetDailyCounters]
    · have hz : (∑ s : Stratum, (resetDailyCounters st).V treatedDaily s) = 0 := by
        simp [resetDailyCounters]
      rw [hz]
      have : (0 : ℚ) ≤ p.capacity * ((∑ s : Stratum, st.V population s : ℤ) : ℚ) := by
        apply mul_nonneg hcap
        have : (0 : ℤ) ≤ ∑ s : Stratum, st.V population s :=
          Finset.sum_nonneg (fun s _ => hpop s)
        exact_mod_cast this
      simpa using this
  have hres := avInv_antiviralPasses p (fun s => st.V population s) sels
    (resetDailyCounters st) ha0 ha1 hreset
  obtain ⟨k1, k2, k3, k4, k5⟩ := hres
  have hpopeq : (∑ s : Stratum, (antiviralPasses p sels (resetDailyCounters st)).V population s) =
      ∑ s : Stratum, st.V population s :=
    Finset.sum_congr rfl (fun s _ => k4 s)
  constructor
  · rw [hpopeq]
    exact k5
  · intro hc0
    rw [hc0] at k5
    have hq : ((∑ s : Stratum,
        (antiviralPasses p sels (resetDailyCounters st)).V treatedDaily s : ℤ) : ℚ) ≤ 0 :=
      le_trans k5 (le_of_eq (zero_mul _))
    have hsum0 : (∑ s : Stratum,
        (antiviralPasses p sels (resetDailyCounters st)).V treatedDaily s) ≤ 0 := by
      exact_mod_cast hq
    intro s
    have hterm : ∀ t ∈ (Finset.univ : Finset Stratum),
        0 ≤ (antiviralPasses p sels (resetDailyCounters st)).V treatedDaily t :=
      fun t _ => k3 t
    have hall := (Finset.sum_eq_zero_iff_of_nonneg hterm).mp
      (le_antisymm hsum0 (Finset.sum_nonneg hterm))
    exact hall s (Finset.mem_univ s)

/-- Concrete node state used by the allocation witnesses: every stratum has
4 treatable out of a population of 10, nothing else. -/
def avWitnessV : NodeState :=
  fun v _ => if v = treatable then 4 else if v = population then 10 else 0

/-- Concrete node used by the allocation witnesses: antiviral stockpile 5. -/
def avWitnessState : NodeSim :=
  { V := avWitnessV, stockpileAntivirals := 5, stockpileVaccines := 0 }

/-- Concrete parameters used by the allocation witnesses. -/
def avWitnessParams : AntiviralParams :=
  { effectiveness := 1, adherence := 1, capacity := 1 }

theorem applyAntiviralsNode_used_spec_witness :
    0 < avWitnessState.stockpileAntivirals ∧
    0 < avTotalTreatable Finset.univ avWitnessState.V ∧
    ((0 < specAntiviralUsed avWitnessParams Finset.univ avWitnessState →
      (applyAntiviralsNode avWitnessParams Finset.univ avWitnessState).stockpileAntivirals =
        avWitnessState.stockpileAntivirals -
          specAntiviralUsed avWitnessParams Finset.univ avWitnessState) ∧
    (specAntiviralUsed avWitnessParams Finset.univ avWitnessState ≤ 0 →
      applyAntiviralsNode avWitnessParams Finset.univ avWitnessState = avWitnessState)) :=
  ⟨by decide, by decide,
    applyAntiviralsNode_used_spec avWitnessParams Finset.univ avWitnessState
      (by decide) (by decide)⟩

theorem antiviralPasses_capacity_bound_witness :
    (0 : ℚ) ≤ avWitnessParams.capacity ∧
    (0 : ℚ) ≤ avWitnessParams.adherence ∧
    avWitnessParams.adherence ≤ 1 ∧
    (∀ s, 0 ≤ avWitnessState.V treatable s) ∧
    (∀ s, 0 ≤ avWitnessState.V population s) ∧
    ((((∑ s : Stratum, (antiviralPasses avWitnessParams [Finset.univ]
        (resetDailyCounters avWitnessState)).V treatedDaily s : ℤ) : ℚ) ≤
      avWitnessParams.capacity * ((∑ s : Stratum, (antiviralPasses avWitnessParams [Finset.univ]
        (resetDailyCounters avWitnessState)).V population s : ℤ) : ℚ)) ∧
    (avWitnessParams.capacity = 0 →
      ∀ s, (antiviralPasses avWitnessParams [Finset.univ]
        (resetDailyCounters avWitnessState)).V treatedDaily s = 0)) :=
  ⟨by norm_num [avWitnessParams], by norm_num [avWitnessParams], by norm_num [avWitnessParams],
    by decide, by decide,
    antiviralPasses_capacity_bound avWitnessParams [Finset.univ] avWitnessState
      (by norm_num [avWitnessParams]) (by norm_num [avWitnessParams])
      (by norm_num [avWitnessParams]) (by decide) (by decide)⟩

/-- The parameters consulted by `applyVaccinesToPriorityGroupSelections`. -/
structure VaccineParams where
  adherence : ℚ
  capacity : ℚ

/-- The compartments vaccines are applied to (never `deceased`),
in the order of the `compartments` vector of the source. -/
def vaccineCompartments : List SEATIRDVar :=
  [susceptible, exposed, asymptomatic, treatable, infectious, recovered]

/-- Elementary write on the `(age group, risk group)` slice of the variables
array: the two vaccination columns of every variable. -/
def sliceAdd (v : SEATIRDVar) (x : Fin 2) (k : ℤ) (W : SEATIRDVar → Fin 2 → ℤ) :
    SEATIRDVar → Fin 2 → ℤ :=
  fun w y => if w = v ∧ y = x then W w y + k else W w y

/-- The body of the vaccination loop for one compartment `c` at one
`(age group, risk group)` of the selection (source lines 764-819): compute the
adherent unvaccinated share of the compartment, the pro-rata count
`numberVaccinated`, and when positive move that count from the unvaccinated to
the vaccinated column of both the compartment and `population`, bumping
`vaccinated (daily)`.  Reads see the updates of earlier compartments at the
same `(age, risk)`, which the fold threads through. -/
def vacCompartmentStep (adherence totalAdherent : ℚ) (used : ℤ)
    (W : SEATIRDVar → Fin 2 → ℤ) (c : SEATIRDVar) : SEATIRDVar → Fin 2 → ℤ :=
  if W population 0 ≤ 0 then W
  else
    let adherent : ℚ :=
      (adherence * ((W population 0 + W population 1 : ℤ) : ℚ) - ((W population 1 : ℤ) : ℚ)) *
        ((W c 0 : ℤ) : ℚ) / ((W population 0 : ℤ) : ℚ)
    let k : ℤ := cppInt (adherent / totalAdherent * (used : ℚ))
    if k ≤ 0 then W
    else
      sliceAdd vaccinatedDaily 1 k
        (sliceAdd population 1 k
          (sliceAdd population 0 (-k)
            (sliceAdd c 1 k
              (sliceAdd c 0 (-k) W))))

/-- The `(age, risk)` slice of a node's variables. -/
def nodeSlice (V : NodeState) (a : Fin 5) (r : Fin 2) : SEATIRDVar → Fin 2 → ℤ :=
  fun v x => V v ⟨a, r, x⟩

/-- One call of `StochasticSEATIRD::applyVaccinesToPriorityGroupSelections`
restricted to a single node.  The selection is modelled from the spec as the
set of `(age group, risk group)` pairs produced by
`PriorityGroupSelections::getStratificationValuesSet2`.  The
schedule-rewrite walk at the end of the body only mutates schedule
stratifications, not the variables array or the stockpile. -/
def applyVaccinesNode (p : VaccineParams) (sel2 : Finset (Fin 5 × Fin 2)) (st : NodeSim) :
    NodeSim :=
  if st.stockpileVaccines = 0 then st
  else
    let totalPopulation : ℤ := ∑ ar ∈ sel2,
      (st.V population ⟨ar.1, ar.2, 0⟩ + st.V population ⟨ar.1, ar.2, 1⟩)
    let totalVaccinatedPopulation : ℤ := ∑ ar ∈ sel2, st.V population ⟨ar.1, ar.2, 1⟩
    let totalUnvaccinatedPopulation : ℤ := ∑ ar ∈ sel2, st.V population ⟨ar.1, ar.2, 0⟩
    if totalUnvaccinatedPopulation ≤ 0 then st
    else
      let totalAdherentUnvaccinated : ℚ :=
        p.adherence * (totalPopulation : ℚ) - (totalVaccinatedPopulation : ℚ)
      let used1 : ℤ := min st.stockpileVaccines (cppInt totalAdherentUnvaccinated)
      let capacityTotalPopulation : ℤ := ∑ s : Stratum, st.V population s
      let todayUsedCapacity : ℤ := ∑ ar : Fin 5 × Fin 2, st.V vaccinatedDaily ⟨ar.1, ar.2, 1⟩
      let used : ℤ := min used1
        (cppInt (p.capacity * (capacityTotalPopulation : ℚ) - (todayUsedCapacity : ℚ)))
      if used ≤ 0 then st
      else
        { st with
          stockpileVaccines := st.stockpileVaccines - used
          V := fun v s =>
            if (s.age, s.risk) ∈ sel2 then
              (vaccineCompartments.foldl
                (vacCompartmentStep p.adherence totalAdherentUnvaccinated used)
                (nodeSlice st.V s.age s.risk)) v s.vax
            else st.V v s }

theorem sliceAdd_apply (v : SEATIRDVar) (x : Fin 2) (k : ℤ) (W : SEATIRDVar → Fin 2 → ℤ)
    (w : SEATIRDVar) (y : Fin 2) :
    sliceAdd v x k W w y = if w = v ∧ y = x then W w y + k else W w y := rfl

/-- A compartment step never touches a variable outside
`{c, population, vaccinatedDaily}`. -/
theorem vacCompartmentStep_untouched (adherence totalAdherent : ℚ) (used : ℤ)
    (W : SEATIRDVar → Fin 2 → ℤ) (c : SEATIRDVar) (v : SEATIRDVar) (x : Fin 2)
    (hc : v ≠ c) (hp : v ≠ population) (hd : v ≠ vaccinatedDaily) :
    vacCompartmentStep adherence totalAdherent used W c v x = W v x := by
  unfold vacCompartmentStep
  by_cases h1 : W population 0 ≤ 0
  · rw [if_pos h1]
  · rw [if_neg h1]
    by_cases h2 : cppInt ((adherence * ((W population 0 + W population 1 : ℤ) : ℚ) -
        ((W population 1 : ℤ) : ℚ)) * ((W c 0 : ℤ) : ℚ) / ((W population 0 : ℤ) : ℚ) /
        totalAdherent * (used : ℚ)) ≤ 0
    · simp only [h2, if_true]
    · simp only [h2, if_false]
      simp [sliceAdd_apply, hc, hp, hd]

/-- A compartment step preserves the two-column sum of every variable other
than `vaccinatedDaily`, provided the compartment itself is not one of
`population`, `vaccinatedDaily`. -/
theorem vacCompartmentStep_colsum (adherence totalAdherent : ℚ) (used : ℤ)
    (W : SEATIRDVar → Fin 2 → ℤ) (c : SEATIRDVar) (v : SEATIRDVar)
    (hv : v ≠ vaccinatedDaily) (hc1 : c ≠ population) (hc2 : c ≠ vaccinatedDaily) :
    (∑ x : Fin 2, vacCompartmentStep adherence totalAdherent used W c v x) =
      ∑ x : Fin 2, W v x := by
  unfold vacCompartmentStep
  by_cases h1 : W population 0 ≤ 0
  · rw [if_pos h1]
  · rw [if_neg h1]
    by_cases h2 : cppInt ((adherence * ((W population 0 + W population 1 : ℤ) : ℚ) -
        ((W population 1 : ℤ) : ℚ)) * ((W c 0 : ℤ) : ℚ) / ((W population 0 : ℤ) : ℚ) /
        totalAdherent * (used : ℚ)) ≤ 0
    · simp only [h2, if_true]
    · simp only [h2, if_false]
      rw [Fin.sum_univ_two, Fin.sum_univ_two]
      by_cases hvc : v = c
      · subst hvc
        simp [sliceAdd_apply, hv, hc1, hc2, Fin.ext_iff]
        ring
      · by_cases hvp : v = population
        · subst hvp
          simp [sliceAdd_apply, hv, Ne.symm hc1, hvc, Fin.ext_iff]
          ring
        · simp [sliceAdd_apply, hv, hvc, hvp, Fin.ext_iff]

theorem sum_stratum_slices (f : Stratum → ℤ) :
    ∑ s : Stratum, f s = ∑ ar : Fin 5 × Fin 2, ∑ x : Fin 2, f ⟨ar.1, ar.2, x⟩ := by
  have h1 : ∑ s : Stratum, f s = ∑ p : (Fin 5 × Fin 2) × Fin 2, f ⟨p.1.1, p.1.2, p.2⟩ :=
    (Fintype.sum_equiv stratumEquiv (fun p => f ⟨p.1.1, p.1.2, p.2⟩) f (fun p => rfl)).symm
  rw [h1, Fintype.sum_prod_type]

theorem sum_fin2_list_sum (cs : List SEATIRDVar) (F : SEATIRDVar → Fin 2 → ℤ) :
    (∑ x : Fin 2, (cs.map (fun v => F v x)).sum) =
      (cs.map (fun v => ∑ x : Fin 2, F v x)).sum := by
  induction cs with
  | nil => simp
  | cons c rest ih =>
    simp only [List.map_cons, List.sum_cons]
    rw [Finset.sum_add_distrib, ih]

theorem vacFold_colsum (adherence totalAdherent : ℚ) (used : ℤ)
    (v : SEATIRDVar) (hv : v ≠ vaccinatedDaily) :
    ∀ (cs : List SEATIRDVar), (∀ c ∈ cs, c ≠ population ∧ c ≠ vaccinatedDaily) →
    ∀ (W : SEATIRDVar → Fin 2 → ℤ),
    (∑ x : Fin 2, (cs.foldl (vacCompartmentStep adherence totalAdherent used) W) v x) =
      ∑ x : Fin 2, W v x := by
  intro cs
  induction cs with
  | nil =>
    intro _ W
    rfl
  | cons c rest ih =>
    intro hcs W
    rw [List.foldl_cons, ih (fun d hd => hcs d (List.mem_cons_of_mem c hd)) _]
    exact vacCompartmentStep_colsum adherence totalAdherent used W c v hv
      (hcs c (List.mem_cons_self c rest)).1 (hcs c (List.mem_cons_self c rest)).2

theorem vacFold_untouched (adherence totalAdherent : ℚ) (used : ℤ)
    (v : SEATIRDVar) (x : Fin 2) (hp : v ≠ population) (hd : v ≠ vaccinatedDaily) :
    ∀ (cs : List SEATIRDVar), v ∉ cs → ∀ (W : SEATIRDVar → Fin 2 → ℤ),
    (cs.foldl (vacCompartmentStep adherence totalAdherent used) W) v x = W v x := by
  intro cs
  induction cs with
  | nil =>
    intro _ W
    rfl
  | cons c rest ih =>
    intro hv W
    rw [List.foldl_cons, ih (fun h => hv (List.mem_cons_of_mem c h)) _]
    exact vacCompartmentStep_untouched adherence totalAdherent used W c v x
      (fun h => hv (by rw [h]; exact List.mem_cons_self c rest)) hp hd

/-- Both the disease-compartment total and the population total of a node are
unchanged by a vaccination pass: every move subtracts from the `(a, r, 0)`
column exactly what it adds to the `(a, r, 1)` column, for the compartment
and for `population` alike. -/
theorem applyVaccinesNode_totals (p : VaccineParams) (sel2 : Finset (Fin 5 × Fin 2))
    (st : NodeSim) :
    compartmentTotal (applyVaccinesNode p sel2 st).V = compartmentTotal st.V ∧
    populationTotal (applyVaccinesNode p sel2 st).V = populationTotal st.V := by
  have hcs : ∀ c ∈ vaccineCompartments, c ≠ population ∧ c ≠ vaccinatedDaily := by
    decide
  have hnew : ∀ (ta : ℚ) (used : ℤ),
      (compartmentTotal (fun v s =>
        if (s.age, s.risk) ∈ sel2 then
          (vaccineCompartments.foldl (vacCompartmentStep p.adherence ta used)
            (nodeSlice st.V s.age s.risk)) v s.vax
        else st.V v s) = compartmentTotal st.V) ∧
      (populationTotal (fun v s =>
        if (s.age, s.risk) ∈ sel2 then
          (vaccineCompartments.foldl (vacCompartmentStep p.adherence ta used)
            (nodeSlice st.V s.age s.risk)) v s.vax
        else st.V v s) = populationTotal st.V) := by
    intro ta used
    constructor
    · unfold compartmentTotal
      rw [sum_stratum_slices, sum_stratum_slices]
      refine Finset.sum_congr rfl ?_
      intro ar _
      by_cases har : ar ∈ sel2
      · have hpt : ∀ (v : SEATIRDVar) (x : Fin 2),
            (fun v s =>
              if (s.age, s.risk) ∈ sel2 then
                (vaccineCompartments.foldl (vacCompartmentStep p.adherence ta used)
                  (nodeSlice st.V s.age s.risk)) v s.vax
              else st.V v s) v (⟨ar.1, ar.2, x⟩ : Stratum) =
              (vaccineCompartments.foldl (vacCompartmentStep p.adherence ta used)
                (nodeSlice st.V ar.1 ar.2)) v x := by
          intro v x
          show (if (ar.1, ar.2) ∈ sel2 then _ else _) = _
          rw [if_pos har]
        have hmap : ∀ x : Fin 2,
            (diseaseCompartments.map (fun v =>
              (fun v s =>
                if (s.age, s.risk) ∈ sel2 then
                  (vaccineCompartments.foldl (vacCompartmentStep p.adherence ta used)
                    (nodeSlice st.V s.age s.risk)) v s.vax
                else st.V v s) v (⟨ar.1, ar.2, x⟩ : Stratum))).sum =
              (diseaseCompartments.map (fun v =>
                (vaccineCompartments.foldl (vacCompartmentStep p.adherence ta used)
                  (nodeSlice st.V ar.1 ar.2)) v x)).sum := by
          intro x
          exact congrArg List.sum (congrArg (List.map · diseaseCompartments)
            (funext (fun v => hpt v x))) |>.trans rfl
        calc (∑ x : Fin 2, (diseaseCompartments.map (fun v =>
              (fun v s =>
                if (s.age, s.risk) ∈ sel2 then
                  (vaccineCompartments.foldl (vacCompartmentStep p.adherence ta used)
                    (nodeSlice st.V s.age s.risk)) v s.vax
                else st.V v s) v (⟨ar.1, ar.2, x⟩ : Stratum))).sum)
            = ∑ x : Fin 2, (diseaseCompartments.map (fun v =>
                (vaccineCompartments.foldl (vacCompartmentStep p.adherence ta used)
                  (nodeSlice st.V ar.1 ar.2)) v x)).sum :=
              Finset.sum_congr rfl (fun x _ => hmap x)
          _ = ∑ x : Fin 2, (diseaseCompartments.map (fun v =>
                nodeSlice st.V ar.1 ar.2 v x)).sum := by
              rw [sum_fin2_list_sum, sum_fin2_list_sum]
              simp only [diseaseCompartments, List.map_cons, List.map_nil,
                List.sum_cons, List.sum_nil]
              rw [vacFold_colsum p.adherence ta used susceptible (by decide)
                  vaccineCompartments hcs _,
                vacFold_colsum p.adherence ta used exposed (by decide)
                  vaccineCompartments hcs _,
                vacFold_colsum p.adherence ta used asymptomatic (by decide)
                  vaccineCompartments hcs _,
                vacFold_colsum p.adherence ta used treatable (by decide)
                  vaccineCompartments hcs _,
                vacFold_colsum p.adherence ta used infectious (by decide)
                  vaccineCompartments hcs _,
                vacFold_colsum p.adherence ta used recovered (by decide)
                  vaccineCompartments hcs _,
                vacFold_colsum p.adherence ta used deceased (by decide)
                  vaccineCompartments hcs _]
          _ = ∑ x : Fin 2, (diseaseCompartments.map (fun v =>
                st.V v ⟨ar.1, ar.2, x⟩)).sum := rfl
      · refine Finset.sum_congr rfl ?_
        intro x _
        have hpt : ∀ v : SEATIRDVar,
            (fun v s =>
              if (s.age, s.risk) ∈ sel2 then
                (vaccineCompartments.foldl (vacCompartmentStep p.adherence ta used)
                  (nodeSlice st.V s.age s.risk)) v s.vax
              else st.V v s) v (⟨ar.1, ar.2, x⟩ : Stratum) = st.V v ⟨ar.1, ar.2, x⟩ := by
          intro v
          show (if (ar.1, ar.2) ∈ sel2 then _ else _) = _
          rw [if_neg har]
        exact congrArg List.sum (congrArg (List.map · diseaseCompartments)
          (funext hpt)) |>.trans rfl
    · unfold populationTotal
      rw [sum_stratum_slices, sum_stratum_slices]
      refine Finset.sum_congr rfl ?_
      intro ar _
      by_cases har : ar ∈ sel2
      · have hpt : ∀ x : Fin 2,
            (fun v s =>
              if (s.age, s.risk) ∈ sel2 then
                (vaccineCompartments.foldl (vacCompartmentStep p.adherence ta used)
                  (nodeSlice st.V s.age s.risk)) v s.vax
              else st.V v s) population (⟨ar.1, ar.2, x⟩ : Stratum) =
              (vaccineCompartments.foldl (vacCompartmentStep p.adherence ta used)
                (nodeSlice st.V ar.1 ar.2)) population x := by
          intro x
          show (if (ar.1, ar.2) ∈ sel2 then _ else _) = _
          rw [if_pos har]
        rw [Finset.sum_congr rfl (fun x _ => hpt x)]
        exact vacFold_colsum p.adherence ta used population (by decide)
          vaccineCompartments hcs _
      · refine Finset.sum_congr rfl ?_
        intro x _
        show (if (ar.1, ar.2) ∈ sel2 then _ else _) = _
        rw [if_neg har]
  unfold applyVaccinesNode
  dsimp only
  split_ifs with h1 h2 h3
  · exact ⟨rfl, rfl⟩
  · exact ⟨rfl, rfl⟩
  · exact ⟨rfl, rfl⟩
  · exact hnew _ _

/-- The ten event types of `StochasticSEATIRDEvent`. -/
inductive SEATIRDEventType where
  | EtoA | AtoT | AtoR | AtoD | TtoI | TtoR | TtoD | ItoR | ItoD | CONTACT
deriving DecidableEq, Repr

/-- An event of a schedule.  In the source `fromStratificationValues` is
always the complete 3-vector of the schedule's stratum, while
`toStratificationValues` of a CONTACT event is expected to be the 2-vector
`(age, risk)` of the target (the vaccination value of the target is resolved
only at dispatch). -/
structure SEATIRDEvent where
  initTime : ℚ
  time : ℚ
  eventType : SEATIRDEventType
  fromStratificationValues : Stratum
  toStratificationValues : List ℤ
deriving DecidableEq

/-- Reading a CONTACT target 2-vector back as indices, as the source does when
it indexes the population cache with `toStratificationValues[0]`, `[1]`. -/
def decodeAgeRisk : List ℤ → Option (Fin 5 × Fin 2)
  | [a, r] =>
    if h : 0 ≤ a ∧ a < 5 ∧ 0 ≤ r ∧ r < 2 then
      some (⟨a.toNat, by omega⟩, ⟨r.toNat, by omega⟩)
    else none
  | _ => none

/-- The node-level inputs the CONTACT branch of `processEvent` consults: the
population cache `populations_`, the per-`(age, risk)` count returned by
`getPopulationInVaccineLatencyPeriod`, the verdict of `Npi::isNpiEffective`
(the `Npi` class is not among the provided sources; it is a pure predicate of
the npi list, node, day and age pair, modelled here as its boolean result),
and the vaccine effectiveness parameter. -/
structure ContactEnv where
  populations : Fin 5 → Fin 2 → Fin 2 → ℤ
  latency : Fin 5 → Fin 2 → ℤ
  npiBlocks : Bool
  vaccineEffectiveness : ℚ

/-- The random draws a CONTACT dispatch can consume, in order: the vaccination
draw `rand_.randInt(ageRiskPopulationSize - 1) + 1`, the effectiveness draw
`rand_.rand()`, and the target draw `rand_.randInt(targetPopulationSize - 1) + 1`. -/
structure ContactDraws where
  vaxDraw : ℤ
  effDraw : ℚ
  targetDraw : ℤ

/-- `StochasticSEATIRD::processEvent` (source lines 331-456) as a function of
the node state: the nine disease transitions move one individual between
compartments at the event's stratum; a CONTACT event runs the NPI test, the
vaccination-status draw, the vaccine-effectiveness test, forms the complete
target stratum, and exposes at most one susceptible.  The result carries the
new node state, the stratum passed to `expose(1, nodeId, ·)` when the
exposure fires (schedule creation is modelled separately), and the boolean
return value of `processEvent`. -/
def processEvent (env : ContactEnv) (draws : ContactDraws) (ev : SEATIRDEvent)
    (st : NodeSim) : NodeSim × Option Stratum × Bool :=
  match ev.eventType with
  | .EtoA =>
    ({ st with V := transition 1 exposed asymptomatic ev.fromStratificationValues st.V },
      none, true)
  | .AtoT =>
    ({ st with V := transition 1 asymptomatic treatable ev.fromStratificationValues st.V },
      none, true)
  | .AtoR =>
    ({ st with V := transition 1 asymptomatic recovered ev.fromStratificationValues st.V },
      none, true)
  | .AtoD =>
    ({ st with V := transition 1 asymptomatic deceased ev.fromStratificationValues st.V },
      none, true)
  | .TtoI =>
    ({ st with V := transition 1 treatable infectious ev.fromStratificationValues st.V },
      none, true)
  | .TtoR =>
    ({ st with V := transition 1 treatable recovered ev.fromStratificationValues st.V },
      none, true)
  | .TtoD =>
    ({ st with V := transition 1 treatable deceased ev.fromStratificationValues st.V },
      none, true)
  | .ItoR =>
    ({ st with V := transition 1 infectious recovered ev.fromStratificationValues st.V },
      none, true)
  | .ItoD =>
    ({ st with V := transition 1 infectious deceased ev.fromStratificationValues st.V },
      none, true)
  | .CONTACT =>
    if ev.toStratificationValues.length ≠ 2 then (st, none, false)
    else if env.npiBlocks then (st, none, true)
    else
      match decodeAgeRisk ev.toStratificationValues with
      | none => (st, none, true)
      | some (ta, tr) =>
        if env.populations ta tr 1 ≥ draws.vaxDraw ∧ env.latency ta tr < draws.vaxDraw ∧
            draws.effDraw ≤ env.vaccineEffectiveness then
          (st, none, true)
        else
          let v : Fin 2 := if env.populations ta tr 1 ≥ draws.vaxDraw then 1 else 0
          let target : Stratum := ⟨ta, tr, v⟩
          let targetPopulationSize : ℤ :=
            if ev.fromStratificationValues = target then env.populations ta tr v - 1
            else env.populations ta tr v
          if 0 < targetPopulationSize then
            if st.V susceptible target ≥ draws.targetDraw then
              ({ st with V := exposeVars 1 target st.V }, some target, true)
            else (st, none, true)
          else (st, none, true)

/-- Modelled from the spec: `StochasticSEATIRDSchedule` (not among the
provided sources) as far as contact-event insertion needs it: the pending
events, the schedule's stratum, the cancellation flag and the cached
infection window. -/
structure SEATIRDSchedule where
  events : List SEATIRDEvent
  stratificationValues : Stratum
  canceled : Bool
  infectedTMin : ℚ
  infectedTMax : ℚ

/-- The contact-time loop of `initializeContactEvents` for one target
`(age, risk)`: starting from the infection onset, each successive exponential
waiting time (supplied as the input list, since the draws come from the
generator) yields the next contact time, and events are emitted while the
time is still inside the infection window; the loop stops at the first time
at or past the window's end. -/
def contactEventsFor (fromS : Stratum) (a : Fin 5) (r : Fin 2) (tcFinal : ℚ) :
    ℚ → List ℚ → List SEATIRDEvent
  | _, [] => []
  | tcInit, d :: ds =>
    if tcInit + d < tcFinal then
      { initTime := tcInit, time := tcInit + d, eventType := SEATIRDEventType.CONTACT,
        fromStratificationValues := fromS,
        toStratificationValues := [((a : ℕ) : ℤ), ((r : ℕ) : ℤ)] } ::
        contactEventsFor fromS a r tcFinal (tcInit + d) ds
    else []

/-- `StochasticSEATIRD::initializeContactEvents` (source lines 272-329):
when the configured stratification dimensions are not
`(5 age groups, 2 risk groups, 2 vaccinated groups)`, report the error and
return with the schedule untouched; otherwise insert the CONTACT events of
every target `(age, risk)` into the schedule's event queue. -/
def buildContactEvents (n0 n1 n2 : ℕ) (draws : Fin 5 → Fin 2 → List ℚ)
    (schedule : SEATIRDSchedule) : SEATIRDSchedule :=
  if n0 ≠ 5 ∨ n1 ≠ 2 ∨ n2 ≠ 2 then schedule
  else
    { schedule with
      events := schedule.events ++
        (List.finRange 5).flatMap (fun a =>
          (List.finRange 2).flatMap (fun r =>
            contactEventsFor schedule.stratificationValues a r schedule.infectedTMax
              schedule.infectedTMin (draws a r))) }

theorem decodeAgeRisk_encode (ta : Fin 5) (tr : Fin 2) :
    decodeAgeRisk [((ta : ℕ) : ℤ), ((tr : ℕ) : ℤ)] = some (ta, tr) := by
  have h : (0 : ℤ) ≤ ((ta : ℕ) : ℤ) ∧ ((ta : ℕ) : ℤ) < 5 ∧
      (0 : ℤ) ≤ ((tr : ℕ) : ℤ) ∧ ((tr : ℕ) : ℤ) < 2 :=
    ⟨by positivity, by exact_mod_cast ta.isLt, by positivity, by exact_mod_cast tr.isLt⟩
  rw [decodeAgeRisk, dif_pos h]
  congr 1

/-- C7.  CONTACT dispatch: once a CONTACT event with a well-formed 2-vector
target has passed the NPI test and the vaccine test, with the complete target
stratum `(to_age, to_risk, v)` formed, let `N` be the cached target-stratum
population reduced by 1 when the source stratum equals the target; then
`expose(1, node, target)` is called exactly when `N > 0` and the uniform draw
is at most the current susceptible count of the target stratum, and a single
CONTACT event produces at most one exposure (of one individual). -/
theorem processEvent_contact_dispatch (env : ContactEnv) (draws : ContactDraws)
    (ta : Fin 5) (tr : Fin 2) (fromS : Stratum) (t0 t1 : ℚ) (st : NodeSim)
    (hnpi : env.npiBlocks = false)
    (hpass : ¬(env.populations ta tr 1 ≥ draws.vaxDraw ∧
      env.latency ta tr < draws.vaxDraw ∧ draws.effDraw ≤ env.vaccineEffectiveness)) :
    processEvent env draws
      ⟨t0, t1, SEATIRDEventType.CONTACT, fromS, [((ta : ℕ) : ℤ), ((tr : ℕ) : ℤ)]⟩ st =
      (if 0 < (if fromS = (⟨ta, tr,
            if env.populations ta tr 1 ≥ draws.vaxDraw then 1 else 0⟩ : Stratum) then
          env.populations ta tr
            (if env.populations ta tr 1 ≥ draws.vaxDraw then 1 else 0) - 1
        else env.populations ta tr
            (if env.populations ta tr 1 ≥ draws.vaxDraw then 1 else 0)) ∧
        draws.targetDraw ≤ st.V susceptible
          ⟨ta, tr, if env.populations ta tr 1 ≥ draws.vaxDraw then 1 else 0⟩ then
        ({ st with V := (exposeVars 1
            ⟨ta, tr, if env.populations ta tr 1 ≥ draws.vaxDraw then 1 else 0⟩ st.V) },
          some (⟨ta, tr, if env.populations ta tr 1 ≥ draws.vaxDraw then 1 else 0⟩ : Stratum),
          true)
      else (st, none, true)) := by
  show (if ([((ta : ℕ) : ℤ), ((tr : ℕ) : ℤ)] : List ℤ).length ≠ 2 then (st, none, false)
    else if env.npiBlocks then (st, none, true)
    else _) = _
  rw [if_neg (by simp), hnpi, if_neg (by simp)]
  rw [decodeAgeRisk_encode]
  dsimp only
  rw [if_neg hpass]
  set v : Fin 2 := if env.populations ta tr 1 ≥ draws.vaxDraw then 1 else 0 with hv
  set target : Stratum := ⟨ta, tr, v⟩ with htarget
  set N : ℤ := if fromS = target then env.populations ta tr v - 1
    else env.populations ta tr v with hN
  by_cases h1 : 0 < N
  · by_cases h2 : st.V susceptible target ≥ draws.targetDraw
    · rw [if_pos h1, if_pos h2, if_pos ⟨h1, h2⟩]
    · rw [if_pos h1, if_neg h2, if_neg (by tauto)]
  · rw [if_neg h1, if_neg (by tauto)]

/-- Concrete inputs for the dispatch and error-path witnesses. -/
def cxContactEnv : ContactEnv :=
  { populations := fun _ _ _ => 5, latency := fun _ _ => 0, npiBlocks := false
    vaccineEffectiveness := 0 }

/-- Concrete draws for the dispatch witness: the vaccination draw exceeds the
vaccinated population, so the target is unvaccinated. -/
def cxContactDraws : ContactDraws :=
  { vaxDraw := 6, effDraw := 1, targetDraw := 3 }

/-- Concrete node for the dispatch witness: 4 susceptibles in every stratum. -/
def cxContactState : NodeSim :=
  { V := fun v _ => if v = susceptible then 4 else 0
    stockpileAntivirals := 0, stockpileVaccines := 0 }

theorem processEvent_contact_dispatch_witness :
    cxContactEnv.npiBlocks = false ∧
    ¬(cxContactEnv.populations 0 0 1 ≥ cxContactDraws.vaxDraw ∧
      cxContactEnv.latency 0 0 < cxContactDraws.vaxDraw ∧
      cxContactDraws.effDraw ≤ cxContactEnv.vaccineEffectiveness) ∧
    processEvent cxContactEnv cxContactDraws
      ⟨0, 0, SEATIRDEventType.CONTACT, ⟨1, 0, 0⟩, [((0 : Fin 5) : ℕ), ((0 : Fin 2) : ℕ)]⟩
      cxContactState =
      (if 0 < (if (⟨1, 0, 0⟩ : Stratum) = (⟨0, 0,
            if cxContactEnv.populations 0 0 1 ≥ cxContactDraws.vaxDraw then 1 else 0⟩ :
              Stratum) then
          cxContactEnv.populations 0 0
            (if cxContactEnv.populations 0 0 1 ≥ cxContactDraws.vaxDraw then 1 else 0) - 1
        else cxContactEnv.populations 0 0
            (if cxContactEnv.populations 0 0 1 ≥ cxContactDraws.vaxDraw then 1 else 0)) ∧
        cxContactDraws.targetDraw ≤ cxContactState.V susceptible
          ⟨0, 0, if cxContactEnv.populations 0 0 1 ≥ cxContactDraws.vaxDraw then 1 else 0⟩ then
        ({ cxContactState with V := (exposeVars 1
            ⟨0, 0, if cxContactEnv.populations 0 0 1 ≥ cxContactDraws.vaxDraw then 1 else 0⟩
            cxContactState.V) },
          some (⟨0, 0,
            if cxContactEnv.populations 0 0 1 ≥ cxContactDraws.vaxDraw then 1 else 0⟩ :
              Stratum), true)
      else (cxContactState, none, true)) :=
  ⟨rfl, by decide,
    processEvent_contact_dispatch cxContactEnv cxContactDraws 0 0 ⟨1, 0, 0⟩ 0 0
      cxContactState rfl (by decide)⟩

/-- C9.  Precondition violation: a CONTACT event whose target stratification
vector does not have exactly 2 entries makes `processEvent` return `false`
with no state change and no exposure; contact-event initialization with
stratification dimensions other than `(5, 2, 2)` returns with the schedule
untouched. -/
theorem badStratum_aborts_without_mutation :
    (∀ (env : ContactEnv) (draws : ContactDraws) (ev : SEATIRDEvent) (st : NodeSim),
      ev.eventType = SEATIRDEventType.CONTACT → ev.toStratificationValues.length ≠ 2 →
      processEvent env draws ev st = (st, none, false)) ∧
    (∀ (n0 n1 n2 : ℕ) (draws : Fin 5 → Fin 2 → List ℚ) (sched : SEATIRDSchedule),
      ¬(n0 = 5 ∧ n1 = 2 ∧ n2 = 2) →
      buildContactEvents n0 n1 n2 draws sched = sched) := by
  constructor
  · intro env draws ev st htype hlen
    obtain ⟨t0, t1, ety, fromS, toS⟩ := ev
    subst htype
    show (if toS.length ≠ 2 then _ else _) = _
    rw [if_pos hlen]
  · intro n0 n1 n2 draws sched hdims
    unfold buildContactEvents
    rw [if_pos (by tauto)]

theorem badStratum_aborts_without_mutation_witness :
    (⟨0, 0, SEATIRDEventType.CONTACT, ⟨0, 0, 0⟩, []⟩ : SEATIRDEvent).eventType =
      SEATIRDEventType.CONTACT ∧
    (⟨0, 0, SEATIRDEventType.CONTACT, ⟨0, 0, 0⟩, []⟩ : SEATIRDEvent).toStratificationValues.length ≠
      2 ∧
    ¬((4 : ℕ) = 5 ∧ (2 : ℕ) = 2 ∧ (2 : ℕ) = 2) ∧
    processEvent cxContactEnv cxContactDraws
      ⟨0, 0, SEATIRDEventType.CONTACT, ⟨0, 0, 0⟩, []⟩ cxContactState =
      (cxContactState, none, false) ∧
    buildContactEvents 4 2 2 (fun _ _ => [])
      ⟨[], ⟨0, 0, 0⟩, false, 0, 1⟩ = ⟨[], ⟨0, 0, 0⟩, false, 0, 1⟩ :=
  ⟨rfl, by decide, by decide,
    badStratum_aborts_without_mutation.1 cxContactEnv cxContactDraws
      ⟨0, 0, SEATIRDEventType.CONTACT, ⟨0, 0, 0⟩, []⟩ cxContactState rfl (by decide),
    badStratum_aborts_without_mutation.2 4 2 2 (fun _ _ => [])
      ⟨[], ⟨0, 0, 0⟩, false, 0, 1⟩ (by decide)⟩

theorem transition_ge (n : ℤ) (src dst : SEATIRDVar) (s : Stratum) (V : NodeState)
    (v : SEATIRDVar) (hv : v ≠ src) (hn : 0 ≤ n) (h0 : 0 ≤ V src s) (t : Stratum) :
    V v t ≤ transition n src dst s V v t := by
  unfold transition
  have ha0 : 0 ≤ min n (V src s) := le_min hn h0
  rw [addAt_apply, addAt_apply]
  by_cases h1 : v = dst ∧ t = s
  · rw [if_pos h1, if_neg (fun hc => hv hc.1)]
    omega
  · rw [if_neg h1, if_neg (fun hc => hv hc.1)]

theorem avStratumUpdate_deceased (nt ne : ℤ) (s : Stratum) (V : NodeState) (t : Stratum) :
    avStratumUpdate nt ne s V deceased t = V deceased t := by
  simp [avStratumUpdate, transition, addAt]

theorem avStratumUpdate_compartmentSum (nt ne : ℤ) (s : Stratum) (V : NodeState) :
    (diseaseCompartments.map (fun v => avStratumUpdate nt ne s V v s)).sum =
      (diseaseCompartments.map (fun v => V v s)).sum := by
  simp [diseaseCompartments, avStratumUpdate, transition, addAt]
  ring

theorem avDistribute_listsum (p : AntiviralParams) (sel : Finset Stratum) (ta : ℚ)
    (used : ℤ) (V : NodeState) (t : Stratum) :
    (diseaseCompartments.map (fun v => avDistribute p sel ta used V v t)).sum =
      (diseaseCompartments.map (fun v => V v t)).sum := by
  by_cases h : t ∈ sel ∧ 0 < avNumberTreated p.adherence ta used V t
  · have hpt : ∀ v, avDistribute p sel ta used V v t =
        avStratumUpdate (avNumberTreated p.adherence ta used V t)
          (cppInt (p.effectiveness * (avNumberTreated p.adherence ta used V t : ℚ))) t V v t := by
      intro v
      rw [avDistribute_apply, if_pos h]
    rw [congrArg List.sum (congrArg (List.map · diseaseCompartments) (funext hpt))]
    exact avStratumUpdate_compartmentSum _ _ _ _
  · have hpt : ∀ v, avDistribute p sel ta used V v t = V v t := by
      intro v
      rw [avDistribute_apply, if_neg h]
    rw [congrArg List.sum (congrArg (List.map · diseaseCompartments) (funext hpt))]

theorem avDistribute_population (p : AntiviralParams) (sel : Finset Stratum) (ta : ℚ)
    (used : ℤ) (V : NodeState) (t : Stratum) :
    avDistribute p sel ta used V population t = V population t := by
  rw [avDistribute_apply]
  split_ifs with h
  · exact avStratumUpdate_population _ _ _ _ _
  · rfl

/-- Both node totals are unchanged by an antiviral pass: its only compartment
move is `treatable → recovered` inside the seven compartments, and it never
writes `population`. -/
theorem applyAntiviralsNode_totals (p : AntiviralParams) (sel : Finset Stratum)
    (st : NodeSim) :
    compartmentTotal (applyAntiviralsNode p sel st).V = compartmentTotal st.V ∧
    populationTotal (applyAntiviralsNode p sel st).V = populationTotal st.V := by
  rw [applyAntiviralsNode_eq]
  split_ifs with h1 h2 h3
  · exact ⟨rfl, rfl⟩
  · exact ⟨rfl, rfl⟩
  · exact ⟨rfl, rfl⟩
  · constructor
    · unfold compartmentTotal
      exact Finset.sum_congr rfl (fun t _ => avDistribute_listsum p sel _ _ st.V t)
    · unfold populationTotal
      exact Finset.sum_congr rfl (fun t _ => avDistribute_population p sel _ _ st.V t)

/-- The sources of the disease transitions and of the exposure performed by a
CONTACT event. -/
def transitionSources : List SEATIRDVar :=
  [susceptible, exposed, asymptomatic, treatable, infectious]

/-- Any event leaves the node state unchanged or applies a single clamped
transition of one individual whose source is one of
`{susceptible, exposed, asymptomatic, treatable, infectious}` and whose
destination is a disease compartment. -/
theorem processEvent_V_cases (env : ContactEnv) (draws : ContactDraws)
    (ev : SEATIRDEvent) (st : NodeSim) :
    (processEvent env draws ev st).1.V = st.V ∨
    ∃ (src dst : SEATIRDVar) (s : Stratum), src ∈ transitionSources ∧
      dst ∈ diseaseCompartments ∧
      (processEvent env draws ev st).1.V = transition 1 src dst s st.V := by
  obtain ⟨t0, t1, ety, fromS, toS⟩ := ev
  cases ety
  case EtoA => exact Or.inr ⟨exposed, asymptomatic, fromS, by decide, by decide, rfl⟩
  case AtoT => exact Or.inr ⟨asymptomatic, treatable, fromS, by decide, by decide, rfl⟩
  case AtoR => exact Or.inr ⟨asymptomatic, recovered, fromS, by decide, by decide, rfl⟩
  case AtoD => exact Or.inr ⟨asymptomatic, deceased, fromS, by decide, by decide, rfl⟩
  case TtoI => exact Or.inr ⟨treatable, infectious, fromS, by decide, by decide, rfl⟩
  case TtoR => exact Or.inr ⟨treatable, recovered, fromS, by decide, by decide, rfl⟩
  case TtoD => exact Or.inr ⟨treatable, deceased, fromS, by decide, by decide, rfl⟩
  case ItoR => exact Or.inr ⟨infectious, recovered, fromS, by decide, by decide, rfl⟩
  case ItoD => exact Or.inr ⟨infectious, deceased, fromS, by decide, by decide, rfl⟩
  case CONTACT =>
    dsimp only [processEvent]
    split_ifs with hlen hnpi
    · exact Or.inl rfl
    · exact Or.inl rfl
    · cases hdec : decodeAgeRisk toS with
      | none => exact Or.inl rfl
      | some pr =>
        obtain ⟨ta, tr⟩ := pr
        dsimp only
        split_ifs <;>
          first
            | exact Or.inl rfl
            | exact Or.inr ⟨susceptible, exposed, _, by decide, by decide, rfl⟩

/-- C1.  Conservation: if the seven disease compartments of a node sum to its
population, then they still do after any disease-transition event or CONTACT
dispatch, after any exposure, after an antiviral pass, and after a
vaccination pass (whose moves update `population` by the same amounts). -/
theorem conservation_preserved (st : NodeSim) (h : Conserved st.V) :
    (∀ (env : ContactEnv) (draws : ContactDraws) (ev : SEATIRDEvent),
      Conserved ((processEvent env draws ev st).1).V) ∧
    (∀ (n : ℤ) (s : Stratum), Conserved (exposeVars n s st.V)) ∧
    (∀ (p : AntiviralParams) (sel : Finset Stratum),
      Conserved (applyAntiviralsNode p sel st).V) ∧
    (∀ (q : VaccineParams) (sel2 : Finset (Fin 5 × Fin 2)),
      Conserved (applyVaccinesNode q sel2 st).V) := by
  have hsub : ∀ v ∈ transitionSources, v ∈ diseaseCompartments := by decide
  refine ⟨?_, ?_, ?_, ?_⟩
  · intro env draws ev
    rcases processEvent_V_cases env draws ev st with heq | ⟨src, dst, s, hsrc, hdst, heq⟩
    · rw [heq]
      exact h
    · rw [heq]
      exact conserved_transition 1 src dst s st.V (hsub src hsrc) hdst h
  · intro n s
    exact conserved_transition n susceptible exposed s st.V (by decide) (by decide) h
  · intro p sel
    have htot := applyAntiviralsNode_totals p sel st
    unfold Conserved at h ⊢
    rw [htot.1, htot.2]
    exact h
  · intro q sel2
    have htot := applyVaccinesNode_totals q sel2 st
    unfold Conserved at h ⊢
    rw [htot.1, htot.2]
    exact h

/-- A conserved concrete node: 3 susceptibles and population 3 everywhere. -/
def c1WitnessState : NodeSim :=
  { V := fun v _ => if v = susceptible then 3 else if v = population then 3 else 0
    stockpileAntivirals := 2, stockpileVaccines := 2 }

theorem conservation_preserved_witness :
    Conserved c1WitnessState.V ∧
    ((∀ (env : ContactEnv) (draws : ContactDraws) (ev : SEATIRDEvent),
      Conserved ((processEvent env draws ev c1WitnessState).1).V) ∧
    (∀ (n : ℤ) (s : Stratum), Conserved (exposeVars n s c1WitnessState.V)) ∧
    (∀ (p : AntiviralParams) (sel : Finset Stratum),
      Conserved (applyAntiviralsNode p sel c1WitnessState).V) ∧
    (∀ (q : VaccineParams) (sel2 : Finset (Fin 5 × Fin 2)),
      Conserved (applyVaccinesNode q sel2 c1WitnessState).V)) :=
  ⟨by unfold Conserved; decide,
    conservation_preserved c1WitnessState (by unfold Conserved; decide)⟩

/-- A node whose stratum `(0,0,0)` holds 10 recovered individuals out of a
population of 10, with a vaccine stockpile of 5. -/
def vacCxState : NodeSim :=
  { V := fun v s =>
      if v = population ∧ s = ⟨0, 0, 0⟩ then 10
      else if v = recovered ∧ s = ⟨0, 0, 0⟩ then 10
      else 0
    stockpileAntivirals := 0, stockpileVaccines := 5 }

/-- Full adherence and full capacity for the vaccination counterexample. -/
def vacCxParams : VaccineParams := { adherence := 1, capacity := 1 }

/-- The selection containing only `(age 0, risk 0)`. -/
def vacCxSel : Finset (Fin 5 × Fin 2) := {(0, 0)}

theorem avDistribute_deceased (p : AntiviralParams) (sel : Finset Stratum) (ta : ℚ)
    (used : ℤ) (V : NodeState) (s : Stratum) :
    avDistribute p sel ta used V deceased s = V deceased s := by
  rw [avDistribute_apply]
  split_ifs with h
  · exact avStratumUpdate_deceased _ _ _ _ _
  · rfl

theorem avDistribute_mono_recovered (p : AntiviralParams) (sel : Finset Stratum) (ta : ℚ)
    (used : ℤ) (V : NodeState) (s : Stratum) (hpe : 0 ≤ p.effectiveness)
    (htr : 0 ≤ V treatable s) :
    V recovered s ≤ avDistribute p sel ta used V recovered s := by
  rw [avDistribute_apply]
  split_ifs with h
  · rw [avStratumUpdate_recovered]
    have hntpos : (0 : ℚ) ≤ (avNumberTreated p.adherence ta used V s : ℚ) := by
      exact_mod_cast h.2.le
    have hne0 : 0 ≤ cppInt (p.effectiveness * (avNumberTreated p.adherence ta used V s : ℚ)) :=
      cppInt_nonneg (mul_nonneg hpe hntpos)
    have := le_min hne0 htr
    omega
  · exact le_refl _

theorem applyVaccinesNode_deceased (q : VaccineParams) (sel2 : Finset (Fin 5 × Fin 2))
    (st : NodeSim) (s : Stratum) :
    (applyVaccinesNode q sel2 st).V deceased s = st.V deceased s := by
  have hpt : ∀ (ta : ℚ) (used : ℤ),
      (fun v s' =>
        if (s'.age, s'.risk) ∈ sel2 then
          (vaccineCompartments.foldl (vacCompartmentStep q.adherence ta used)
            (nodeSlice st.V s'.age s'.risk)) v s'.vax
        else st.V v s') deceased s = st.V deceased s := by
    intro ta used
    dsimp only
    by_cases har : (s.age, s.risk) ∈ sel2
    · rw [if_pos har, vacFold_untouched q.adherence ta used deceased s.vax (by decide)
        (by decide) vaccineCompartments (by decide) (nodeSlice st.V s.age s.risk)]
      rfl
    · rw [if_neg har]
  unfold applyVaccinesNode
  dsimp only
  split_ifs with h1 h2 h3
  · rfl
  · rfl
  · rfl
  · exact hpt _ _

theorem applyVaccinesNode_recovered_colsum (q : VaccineParams)
    (sel2 : Finset (Fin 5 × Fin 2)) (st : NodeSim) (a : Fin 5) (r : Fin 2) :
    (∑ x : Fin 2, (applyVaccinesNode q sel2 st).V recovered ⟨a, r, x⟩) =
      ∑ x : Fin 2, st.V recovered ⟨a, r, x⟩ := by
  have hpt : ∀ (ta : ℚ) (used : ℤ),
      (∑ x : Fin 2, (fun v s' =>
        if (s'.age, s'.risk) ∈ sel2 then
          (vaccineCompartments.foldl (vacCompartmentStep q.adherence ta used)
            (nodeSlice st.V s'.age s'.risk)) v s'.vax
        else st.V v s') recovered (⟨a, r, x⟩ : Stratum)) =
        ∑ x : Fin 2, st.V recovered ⟨a, r, x⟩ := by
    intro ta used
    by_cases har : (a, r) ∈ sel2
    · have hx : ∀ x : Fin 2,
          (fun v s' =>
            if (s'.age, s'.risk) ∈ sel2 then
              (vaccineCompartments.foldl (vacCompartmentStep q.adherence ta used)
                (nodeSlice st.V s'.age s'.risk)) v s'.vax
            else st.V v s') recovered (⟨a, r, x⟩ : Stratum) =
            (vaccineCompartments.foldl (vacCompartmentStep q.adherence ta used)
              (nodeSlice st.V a r)) recovered x := by
        intro x
        show (if (a, r) ∈ sel2 then _ else _) = _
        rw [if_pos har]
      rw [Finset.sum_congr rfl (fun x _ => hx x)]
      rw [vacFold_colsum q.adherence ta used recovered (by decide) vaccineCompartments
        (by decide) (nodeSlice st.V a r)]
      rfl
    · refine Finset.sum_congr rfl ?_
      intro x _
      show (if (a, r) ∈ sel2 then _ else _) = _
      rw [if_neg har]
  unfold applyVaccinesNode
  dsimp only
  split_ifs with h1 h2 h3
  · rfl
  · rfl
  · rfl
  · exact hpt _ _

/-- Guard-by-guard unfolding of `applyVaccinesNode`. -/
theorem applyVaccinesNode_eq (p : VaccineParams) (sel2 : Finset (Fin 5 × Fin 2))
    (st : NodeSim) :
    applyVaccinesNode p sel2 st =
      if st.stockpileVaccines = 0 then st
      else if (∑ ar ∈ sel2, st.V population ⟨ar.1, ar.2, 0⟩) ≤ 0 then st
      else if min (min st.stockpileVaccines
          (cppInt (p.adherence * ((∑ ar ∈ sel2,
              (st.V population ⟨ar.1, ar.2, 0⟩ + st.V population ⟨ar.1, ar.2, 1⟩) : ℤ) : ℚ) -
            ((∑ ar ∈ sel2, st.V population ⟨ar.1, ar.2, 1⟩ : ℤ) : ℚ))))
          (cppInt (p.capacity * ((∑ s : Stratum, st.V population s : ℤ) : ℚ) -
            ((∑ ar : Fin 5 × Fin 2, st.V vaccinatedDaily ⟨ar.1, ar.2, 1⟩ : ℤ) : ℚ))) ≤ 0 then st
      else
        { st with
          stockpileVaccines := st.stockpileVaccines - min (min st.stockpileVaccines
            (cppInt (p.adherence * ((∑ ar ∈ sel2,
                (st.V population ⟨ar.1, ar.2, 0⟩ + st.V population ⟨ar.1, ar.2, 1⟩) : ℤ) : ℚ) -
              ((∑ ar ∈ sel2, st.V population ⟨ar.1, ar.2, 1⟩ : ℤ) : ℚ))))
            (cppInt (p.capacity * ((∑ s : Stratum, st.V population s : ℤ) : ℚ) -
              ((∑ ar : Fin 5 × Fin 2, st.V vaccinatedDaily ⟨ar.1, ar.2, 1⟩ : ℤ) : ℚ)))
          V := fun v s =>
            if (s.age, s.risk) ∈ sel2 then
              (vaccineCompartments.foldl
                (vacCompartmentStep p.adherence
                  (p.adherence * ((∑ ar ∈ sel2,
                      (st.V population ⟨ar.1, ar.2, 0⟩ +
                        st.V population ⟨ar.1, ar.2, 1⟩) : ℤ) : ℚ) -
                    ((∑ ar ∈ sel2, st.V population ⟨ar.1, ar.2, 1⟩ : ℤ) : ℚ))
                  (min (min st.stockpileVaccines
                    (cppInt (p.adherence * ((∑ ar ∈ sel2,
                        (st.V population ⟨ar.1, ar.2, 0⟩ +
                          st.V population ⟨ar.1, ar.2, 1⟩) : ℤ) : ℚ) -
                      ((∑ ar ∈ sel2, st.V population ⟨ar.1, ar.2, 1⟩ : ℤ) : ℚ))))
                    (cppInt (p.capacity * ((∑ s : Stratum, st.V population s : ℤ) : ℚ) -
                      ((∑ ar : Fin 5 × Fin 2,
                        st.V vaccinatedDaily ⟨ar.1, ar.2, 1⟩ : ℤ) : ℚ)))))
                (nodeSlice st.V s.age s.risk)) v s.vax
            else st.V v s } := rfl

/-- Counterexample to per-stratum monotonicity of `recovered`: the daily
vaccination pass moves recovered individuals from stratum `(0,0,0)` to
stratum `(0,0,1)`, so `recovered` at `(0,0,0)` strictly decreases across the
day. -/
theorem vaccination_decreases_recovered :
    (applyVaccinesNode vacCxParams vacCxSel vacCxState).V recovered ⟨0, 0, 0⟩ <
      vacCxState.V recovered ⟨0, 0, 0⟩ := by
  have hTA : (vacCxParams.adherence * ((∑ ar ∈ vacCxSel,
      (vacCxState.V population ⟨ar.1, ar.2, 0⟩ + vacCxState.V population ⟨ar.1, ar.2, 1⟩) :
        ℤ) : ℚ) - ((∑ ar ∈ vacCxSel, vacCxState.V population ⟨ar.1, ar.2, 1⟩ : ℤ) : ℚ)) =
      (10 : ℚ) := by
    rw [show (∑ ar ∈ vacCxSel,
      (vacCxState.V population ⟨ar.1, ar.2, 0⟩ + vacCxState.V population ⟨ar.1, ar.2, 1⟩)) =
        (10 : ℤ) from by decide]
    rw [show (∑ ar ∈ vacCxSel, vacCxState.V population ⟨ar.1, ar.2, 1⟩) = (0 : ℤ) from by decide]
    norm_num [vacCxParams]
  have hCAP : (vacCxParams.capacity * ((∑ s : Stratum, vacCxState.V population s : ℤ) : ℚ) -
      ((∑ ar : Fin 5 × Fin 2, vacCxState.V vaccinatedDaily ⟨ar.1, ar.2, 1⟩ : ℤ) : ℚ)) =
      (10 : ℚ) := by
    rw [show (∑ s : Stratum, vacCxState.V population s) = (10 : ℤ) from by decide]
    rw [show (∑ ar : Fin 5 × Fin 2, vacCxState.V vaccinatedDaily ⟨ar.1, ar.2, 1⟩) = (0 : ℤ)
      from by decide]
    norm_num [vacCxParams]
  have hc10 : cppInt (10 : ℚ) = 10 := by
    norm_num [cppInt]
  rw [applyVaccinesNode_eq, hTA, hCAP, hc10]
  rw [if_neg (by decide), if_neg (by rw [show (∑ ar ∈ vacCxSel,
      vacCxState.V population ⟨ar.1, ar.2, 0⟩) = (10 : ℤ) from by decide]; decide)]
  rw [if_neg (by decide)]
  show (if ((0 : Fin 5), (0 : Fin 2)) ∈ vacCxSel then
      (vaccineCompartments.foldl (vacCompartmentStep vacCxParams.adherence 10
        (min (min vacCxState.stockpileVaccines 10) 10))
        (nodeSlice vacCxState.V 0 0)) recovered (0 : Fin 2)
    else vacCxState.V recovered ⟨0, 0, 0⟩) < vacCxState.V recovered ⟨0, 0, 0⟩
  rw [if_pos (by decide)]
  have hmin : min (min vacCxState.stockpileVaccines 10) 10 = 5 := by decide
  rw [hmin]
  have hpop0 : nodeSlice vacCxState.V 0 0 population 0 = 10 := by decide
  have hpop1 : nodeSlice vacCxState.V 0 0 population 1 = 0 := by decide
  have hrec0 : nodeSlice vacCxState.V 0 0 recovered 0 = 10 := by decide
  have hstep0 : ∀ c : SEATIRDVar, nodeSlice vacCxState.V 0 0 c 0 = 0 →
      vacCompartmentStep vacCxParams.adherence 10 5 (nodeSlice vacCxState.V 0 0) c =
        nodeSlice vacCxState.V 0 0 := by
    intro c hc
    unfold vacCompartmentStep
    rw [hpop0, hpop1, hc]
    rw [if_neg (by decide)]
    dsimp only
    rw [if_pos (by norm_num [vacCxParams, cppInt])]
  simp only [vaccineCompartments, List.foldl_cons, List.foldl_nil]
  rw [hstep0 susceptible (by decide), hstep0 exposed (by decide),
    hstep0 asymptomatic (by decide), hstep0 treatable (by decide),
    hstep0 infectious (by decide)]
  unfold vacCompartmentStep
  rw [hpop0, hpop1, hrec0]
  rw [if_neg (by decide)]
  rw [if_neg (by norm_num [vacCxParams, cppInt])]
  norm_num [sliceAdd, vacCxParams, cppInt, vacCxState, nodeSlice, Stratum.mk.injEq,
    Fin.ext_iff]
  decide

/-- C4 (amended).  Per-stratum monotonicity: `deceased` is non-decreasing
under every operation; `recovered` is non-decreasing under event processing,
exposure and antiviral treatment; and vaccination preserves the
`(age, risk)`-total of `recovered` (summed over the two vaccination strata),
though it may move recovered individuals from the unvaccinated to the
vaccinated stratum. -/
theorem monotonicity_amended (st : NodeSim) (hnn : ∀ v s, 0 ≤ st.V v s)
    (p : AntiviralParams) (hpe : 0 ≤ p.effectiveness) (q : VaccineParams) :
    (∀ (env : ContactEnv) (draws : ContactDraws) (ev : SEATIRDEvent) (s : Stratum),
      st.V deceased s ≤ ((processEvent env draws ev st).1).V deceased s ∧
      st.V recovered s ≤ ((processEvent env draws ev st).1).V recovered s) ∧
    (∀ (n : ℤ) (s t : Stratum), 0 ≤ n →
      st.V deceased t ≤ exposeVars n s st.V deceased t ∧
      st.V recovered t ≤ exposeVars n s st.V recovered t) ∧
    (∀ (sel : Finset Stratum) (s : Stratum),
      st.V deceased s ≤ (applyAntiviralsNode p sel st).V deceased s ∧
      st.V recovered s ≤ (applyAntiviralsNode p sel st).V recovered s) ∧
    (∀ (sel2 : Finset (Fin 5 × Fin 2)) (s : Stratum),
      (applyVaccinesNode q sel2 st).V deceased s = st.V deceased s) ∧
    (∀ (sel2 : Finset (Fin 5 × Fin 2)) (a : Fin 5) (r : Fin 2),
      (∑ x : Fin 2, (applyVaccinesNode q sel2 st).V recovered ⟨a, r, x⟩) =
        ∑ x : Fin 2, st.V recovered ⟨a, r, x⟩) := by
  have hne : ∀ v ∈ transitionSources, recovered ≠ v ∧ deceased ≠ v := by decide
  refine ⟨?_, ?_, ?_, ?_, ?_⟩
  · intro env draws ev s
    rcases processEvent_V_cases env draws ev st with heq | ⟨src, dst, t, hsrc, _, heq⟩
    · rw [heq]
      exact ⟨le_refl _, le_refl _⟩
    · rw [heq]
      exact ⟨transition_ge 1 src dst t st.V deceased (hne src hsrc).2 (by norm_num)
          (hnn src t) s,
        transition_ge 1 src dst t st.V recovered (hne src hsrc).1 (by norm_num)
          (hnn src t) s⟩
  · intro n s t hn
    exact ⟨transition_ge n susceptible exposed s st.V deceased (by decide) hn
        (hnn susceptible s) t,
      transition_ge n susceptible exposed s st.V recovered (by decide) hn
        (hnn susceptible s) t⟩
  · intro sel s
    rw [applyAntiviralsNode_eq]
    split_ifs with h1 h2 h3
    · exact ⟨le_refl _, le_refl _⟩
    · exact ⟨le_refl _, le_refl _⟩
    · exact ⟨le_refl _, le_refl _⟩
    · exact ⟨le_of_eq (avDistribute_deceased p sel _ _ st.V s).symm,
        avDistribute_mono_recovered p sel _ _ st.V s hpe (hnn treatable s)⟩
  · intro sel2 s
    exact applyVaccinesNode_deceased q sel2 st s
  · intro sel2 a r
    exact applyVaccinesNode_recovered_colsum q sel2 st a r

theorem monotonicity_amended_witness :
    (∀ (v : SEATIRDVar) (s : Stratum), 0 ≤ c1WitnessState.V v s) ∧
    (0 : ℚ) ≤ avWitnessParams.effectiveness ∧
    ((∀ (env : ContactEnv) (draws : ContactDraws) (ev : SEATIRDEvent) (s : Stratum),
      c1WitnessState.V deceased s ≤ ((processEvent env draws ev c1WitnessState).1).V deceased s ∧
      c1WitnessState.V recovered s ≤ ((processEvent env draws ev c1WitnessState).1).V recovered s) ∧
    (∀ (n : ℤ) (s t : Stratum), 0 ≤ n →
      c1WitnessState.V deceased t ≤ exposeVars n s c1WitnessState.V deceased t ∧
      c1WitnessState.V recovered t ≤ exposeVars n s c1WitnessState.V recovered t) ∧
    (∀ (sel : Finset Stratum) (s : Stratum),
      c1WitnessState.V deceased s ≤
        (applyAntiviralsNode avWitnessParams sel c1WitnessState).V deceased s ∧
      c1WitnessState.V recovered s ≤
        (applyAntiviralsNode avWitnessParams sel c1WitnessState).V recovered s) ∧
    (∀ (sel2 : Finset (Fin 5 × Fin 2)) (s : Stratum),
      (applyVaccinesNode vacCxParams sel2 c1WitnessState).V deceased s =
        c1WitnessState.V deceased s) ∧
    (∀ (sel2 : Finset (Fin 5 × Fin 2)) (a : Fin 5) (r : Fin 2),
      (∑ x : Fin 2, (applyVaccinesNode vacCxParams sel2 c1WitnessState).V recovered ⟨a, r, x⟩) =
        ∑ x : Fin 2, c1WitnessState.V recovered ⟨a, r, x⟩)) :=
  ⟨by decide, by norm_num [avWitnessParams],
    monotonicity_amended c1WitnessState (by decide) avWitnessParams
      (by norm_num [avWitnessParams]) vacCxParams⟩

/-- The sequence of vaccination passes of one `simulate()` call (source lines
145-146), modelled as a fold over the list of selections. -/
def vaccinePasses (q : VaccineParams) (sels : List (Finset (Fin 5 × Fin 2)))
    (st : NodeSim) : NodeSim :=
  sels.foldl (fun acc sel => applyVaccinesNode q sel acc) st

/-- The treatment phase of one `simulate()` call (source lines 135-146):
reset the three daily counters at `t+1`, then run the antiviral passes, then
the vaccination passes. -/
def treatmentPhase (p : AntiviralParams) (q : VaccineParams)
    (avSels : List (Finset Stratum)) (vacSels : List (Finset (Fin 5 × Fin 2)))
    (st : NodeSim) : NodeSim :=
  vaccinePasses q vacSels (antiviralPasses p avSels (resetDailyCounters st))

/-- C10.  Daily counters are per-day: at the start of the treatment phase all
three daily counters are zero at `t+1` for every stratum, and the entire
phase's outcome does not depend on the values the daily counters held when
`simulate()` was entered — so after the phase they reflect only the passes of
this day, however many passes ran. -/
theorem dailyCounters_reset_and_per_day (p : AntiviralParams) (q : VaccineParams)
    (avSels : List (Finset Stratum)) (vacSels : List (Finset (Fin 5 × Fin 2)))
    (st1 st2 : NodeSim)
    (hV : ∀ v s, v ≠ treatedDaily → v ≠ treatedIneffectiveDaily → v ≠ vaccinatedDaily →
      st1.V v s = st2.V v s)
    (hA : st1.stockpileAntivirals = st2.stockpileAntivirals)
    (hB : st1.stockpileVaccines = st2.stockpileVaccines) :
    (∀ s, (resetDailyCounters st1).V treatedDaily s = 0 ∧
      (resetDailyCounters st1).V treatedIneffectiveDaily s = 0 ∧
      (resetDailyCounters st1).V vaccinatedDaily s = 0) ∧
    treatmentPhase p q avSels vacSels st1 = treatmentPhase p q avSels vacSels st2 := by
  constructor
  · intro s
    refine ⟨?_, ?_, ?_⟩ <;> simp [resetDailyCounters]
  · have hreset : resetDailyCounters st1 = resetDailyCounters st2 := by
      unfold resetDailyCounters
      obtain ⟨V1, a1, b1⟩ := st1
      obtain ⟨V2, a2, b2⟩ := st2
      dsimp only at hV hA hB ⊢
      subst hA
      subst hB
      congr 1
      funext v s
      by_cases hc : v = treatedDaily ∨ v = treatedIneffectiveDaily ∨ v = vaccinatedDaily
      · rw [if_pos hc, if_pos hc]
      · push_neg at hc
        rw [if_neg (by tauto), if_neg (by tauto)]
        exact hV v s hc.1 hc.2.1 hc.2.2
    unfold treatmentPhase
    rw [hreset]

/-- A node that entered the day with stale daily-counter values. -/
def c10StaleState : NodeSim :=
  { c1WitnessState with
    V := fun v s => if v = treatedDaily then 7 else c1WitnessState.V v s }

theorem dailyCounters_reset_and_per_day_witness :
    (∀ (v : SEATIRDVar) (s : Stratum), v ≠ treatedDaily → v ≠ treatedIneffectiveDaily →
      v ≠ vaccinatedDaily → c10StaleState.V v s = c1WitnessState.V v s) ∧
    c10StaleState.stockpileAntivirals = c1WitnessState.stockpileAntivirals ∧
    c10StaleState.stockpileVaccines = c1WitnessState.stockpileVaccines ∧
    ((∀ s, (resetDailyCounters c10StaleState).V treatedDaily s = 0 ∧
      (resetDailyCounters c10StaleState).V treatedIneffectiveDaily s = 0 ∧
      (resetDailyCounters c10StaleState).V vaccinatedDaily s = 0) ∧
    treatmentPhase avWitnessParams vacCxParams [Finset.univ] [Finset.univ] c10StaleState =
      treatmentPhase avWitnessParams vacCxParams [Finset.univ] [Finset.univ] c1WitnessState) :=
  ⟨fun v s h1 _ _ => by simp [c10StaleState, h1], rfl, rfl,
    dailyCounters_reset_and_per_day avWitnessParams vacCxParams [Finset.univ] [Finset.univ]
      c10StaleState c1WitnessState (fun v s h1 _ _ => by simp [c10StaleState, h1]) rfl rfl⟩

/-- The loop of `getDerivedVarPopulationInVaccineLatencyPeriod` (source lines
222-240): starting at the query time and walking backwards while the time is
non-negative and within the latency period, accumulate `vaccinated (daily)`
at vaccinated stratification; a latency period of 0 yields 0. -/
def popInVaccineLatency (daily : ℤ → ℚ) : ℕ → ℤ → ℚ
  | 0, _ => 0
  | L + 1, t => if 0 ≤ t then daily t + popInVaccineLatency daily L (t - 1) else 0

/-- `getDerivedVarPopulationEffectiveVaccines` (source lines 242-260) on the
vaccinated slice: the vaccinated population minus the population still in the
vaccine latency period. -/
def getDerivedVarPopulationEffectiveVaccines (vaccinatedPopulation : ℚ)
    (daily : ℤ → ℚ) (L : ℕ) (t : ℤ) : ℚ :=
  vaccinatedPopulation - popInVaccineLatency daily L t

theorem popInVaccineLatency_eq_sum (daily : ℤ → ℚ)
    (hneg : ∀ n : ℤ, n < 0 → daily n = 0) :
    ∀ (L : ℕ) (t : ℤ), popInVaccineLatency daily L t =
      ∑ k ∈ Finset.range L, daily (t - k) := by
  intro L
  induction L with
  | zero =>
    intro t
    rw [popInVaccineLatency]
    simp
  | succ L ih =>
    intro t
    rw [popInVaccineLatency]
    by_cases h : 0 ≤ t
    · rw [if_pos h, ih (t - 1), Finset.sum_range_succ']
      simp only [Nat.cast_add, Nat.cast_one, Nat.cast_zero, sub_zero]
      rw [add_comm]
      congr 1
      refine Finset.sum_congr rfl ?_
      intro k _
      congr 1
      ring
    · rw [if_neg h]
      symm
      apply Finset.sum_eq_zero
      intro k _
      apply hneg
      push_neg at h
      have : (0 : ℤ) ≤ (k : ℤ) := Int.natCast_nonneg k
      omega

/-- C8.  Latency correctness: with latency period `L`, the derived
vaccinated-effective population at time `t` is the vaccinated population
minus the `vaccinated (daily)` counts of the last `L` days `t, t-1, …,
t-L+1`; with `L = 0` the in-latency population is empty so the whole
vaccinated population is effective. -/
theorem effectiveVaccines_latency (vaccinatedPopulation : ℚ) (daily : ℤ → ℚ)
    (L : ℕ) (t : ℤ) (hneg : ∀ n : ℤ, n < 0 → daily n = 0) :
    getDerivedVarPopulationEffectiveVaccines vaccinatedPopulation daily L t =
      vaccinatedPopulation - ∑ k ∈ Finset.range L, daily (t - k) ∧
    getDerivedVarPopulationEffectiveVaccines vaccinatedPopulation daily 0 t =
      vaccinatedPopulation := by
  constructor
  · unfold getDerivedVarPopulationEffectiveVaccines
    rw [popInVaccineLatency_eq_sum daily hneg L t]
  · unfold getDerivedVarPopulationEffectiveVaccines
    rw [popInVaccineLatency]
    ring

/-- Concrete daily-vaccination history for the latency witness: 3 individuals
vaccinated on day 2, none otherwise. -/
def c8Daily : ℤ → ℚ := fun n => if n = 2 then 3 else 0

theorem effectiveVaccines_latency_witness :
    (∀ n : ℤ, n < 0 → c8Daily n = 0) ∧
    (getDerivedVarPopulationEffectiveVaccines 9 c8Daily 2 3 =
      9 - ∑ k ∈ Finset.range 2, c8Daily (3 - k) ∧
    getDerivedVarPopulationEffectiveVaccines 9 c8Daily 0 3 = 9) :=
  ⟨fun n hn => by rw [c8Daily, if_neg (by omega)],
    effectiveVaccines_latency 9 c8Daily 2 3
      (fun n hn => by rw [c8Daily, if_neg (by omega)])⟩

/-- `RHO` of `travel()` (source line 912). -/
def RHO : ℚ := 39 / 100

/-- The susceptibility-by-age vector `sigma` (source lines 278, 914). -/
def sigmaVec : Fin 5 → ℚ := ![1, 98/100, 94/100, 91/100, 66/100]

/-- The 5×5 contact matrix (source lines 281-285, 916-920). -/
def contactMatrix : Fin 5 → Fin 5 → ℚ :=
  ![![45.1228487783, 8.7808312353, 11.7757947836, 6.10114751268, 4.02227175596],
    ![8.7808312353, 41.2889143668, 13.3332813497, 7.847051289, 4.22656343551],
    ![11.7757947836, 13.3332813497, 21.4270155984, 13.7392636644, 6.92483172729],
    ![6.10114751268, 7.847051289, 13.7392636644, 18.0482119252, 9.45371062356],
    ![4.02227175596, 4.22656343551, 6.92483172729, 9.45371062356, 14.0529294262]]

/-- `ageBasedFlowReductions` (source lines 932-935): initialized to 1 and then
10 for ages 0-4, 2 for ages 5-24, 2 for 65+. -/
def ageBasedFlowReductions : Fin 5 → ℚ := ![10, 2, 1, 1, 2]

/-- The `numberOfInfectiousContactsIJ` accumulation of `travel()` (source
line 980): over partner ages `b`, NPI reduction at the source node times the
source's transmitting count (asymptomatic + treatable + infectious) times
`β · ρ · C[a][b] · σ[a] / ageBasedFlowReductions[a]`. -/
def numberOfInfectiousContactsIJ (beta : ℚ) (npiAtJ : Fin 5 → Fin 5 → ℚ)
    (transmitting : Fin 5 → ℚ) (a : Fin 5) : ℚ :=
  ∑ b : Fin 5, (1 - npiAtJ a b) * transmitting b * beta * RHO * contactMatrix a b *
    sigmaVec a / ageBasedFlowReductions a

/-- The `numberOfInfectiousContactsJI` accumulation of `travel()` (source
line 981): over partner ages `b`, NPI reduction at the sink node times the
source's asymptomatic count times
`β · ρ · C[a][b] · σ[a] / ageBasedFlowReductions[b]`. -/
def numberOfInfectiousContactsJI (beta : ℚ) (npiAtI : Fin 5 → Fin 5 → ℚ)
    (asymptomatic : Fin 5 → ℚ) (a : Fin 5) : ℚ :=
  ∑ b : Fin 5, (1 - npiAtI a b) * asymptomatic b * beta * RHO * contactMatrix a b *
    sigmaVec a / ageBasedFlowReductions b

/-- The per-age transmitting count precomputed by `travel()` (source line
950): asymptomatic + treatable + infectious of the source node. -/
def travelTransmitting (asym treat inf : Fin 5 → ℚ) : Fin 5 → ℚ :=
  fun b => asym b + treat b + inf b

/-- The two directional infectious-contact sums the source computes for a
`(sink i, source j, sink age a)` triple, fed with the source node's per-age
compartment counts. -/
def travelContactSums (beta : ℚ) (npiAtI npiAtJ : Fin 5 → Fin 5 → ℚ)
    (asym treat inf : Fin 5 → ℚ) (a : Fin 5) : ℚ × ℚ :=
  (numberOfInfectiousContactsIJ beta npiAtJ (travelTransmitting asym treat inf) a,
    numberOfInfectiousContactsJI beta npiAtI asym a)

/-- Modelled from the spec: the claim's version of the two directional sums,
in which BOTH directions use the transmitting count
`asymptomatic + treatable + infectious` of the source node (the division
index follows the source: `a` for i→j, `b` for j→i, as the spec's `a_or_b`
allows). -/
def specTravelContactSums (beta : ℚ) (npiAtI npiAtJ : Fin 5 → Fin 5 → ℚ)
    (asym treat inf : Fin 5 → ℚ) (a : Fin 5) : ℚ × ℚ :=
  (∑ b : Fin 5, (1 - npiAtJ a b) * travelTransmitting asym treat inf b * beta * RHO *
      contactMatrix a b * sigmaVec a / ageBasedFlowReductions a,
    ∑ b : Fin 5, (1 - npiAtI a b) * travelTransmitting asym treat inf b * beta * RHO *
      contactMatrix a b * sigmaVec a / ageBasedFlowReductions b)

/-- Counterexample to C3 as stated: with no NPIs, `β = 1`, no asymptomatics
and one treatable individual per age at the source, the code's j→i sum is 0
(it reads only the asymptomatic count) while the claim's formula, which uses
the full transmitting count, is positive. -/
theorem travel_JI_counterexample :
    (travelContactSums 1 (fun _ _ => 0) (fun _ _ => 0) (fun _ => 0) (fun _ => 1)
      (fun _ => 0) 0).2 ≠
    (specTravelContactSums 1 (fun _ _ => 0) (fun _ _ => 0) (fun _ => 0) (fun _ => 1)
      (fun _ => 0) 0).2 := by
  unfold travelContactSums specTravelContactSums numberOfInfectiousContactsJI
    travelTransmitting
  norm_num [Fin.sum_univ_five, RHO, contactMatrix, sigmaVec, ageBasedFlowReductions]

/-- C3 (amended).  Travel formula: the i→j infectious-contact sum matches the
spec's formula (transmitting count, flow reduction indexed by the sink age
`a`), but the j→i sum uses only the source's asymptomatic count (flow
reduction indexed by the partner age `b`). -/
theorem travelContactSums_directional (beta : ℚ) (npiAtI npiAtJ : Fin 5 → Fin 5 → ℚ)
    (asym treat inf : Fin 5 → ℚ) (a : Fin 5) :
    (travelContactSums beta npiAtI npiAtJ asym treat inf a).1 =
      (specTravelContactSums beta npiAtI npiAtJ asym treat inf a).1 ∧
    (travelContactSums beta npiAtI npiAtJ asym treat inf a).2 =
      ∑ b : Fin 5, (1 - npiAtI a b) * asym b * beta * RHO * contactMatrix a b *
        sigmaVec a / ageBasedFlowReductions b :=
  ⟨rfl, rfl⟩

/-- The two random-number generator members of `StochasticSEATIRD`
(header lines 28-30): the Mersenne-Twister `rand_` and the GSL generator
`randGenerator_` allocated in the constructor with `gsl_rng_alloc`. -/
inductive RandomSource where
  | mtRand
  | gslRng
deriving DecidableEq, Fintype

/-- The stochastic call sites of the simulation, one constructor per call
site of the source:
`scheduleConstruction` = `StochasticSEATIRDSchedule(now_, rand_, …)` in
`expose` (line 100); `contactExponential` = `random_exponential(·, &rand_)`
in `initializeContactEvents` (lines 318, 325); `contactVaxSelection` =
`rand_.randInt` in `processEvent` (line 399); `vaccineEffTest` =
`rand_.rand()` in `processEvent` (line 422); `contactTargetSelection` =
`rand_.randInt` in `processEvent` (line 444); `antiviralCancelTest` =
`rand_.rand()` in `applyAntiviralsToPriorityGroupSelections` (line 631);
`vaccineRewriteTest` = `rand_.rand()` in
`applyVaccinesToPriorityGroupSelections` (line 867); `travelBinomial` =
`gsl_ran_binomial(randGenerator_, …)` in `travel` (line 1026). -/
inductive DrawSite where
  | scheduleConstruction
  | contactExponential
  | contactVaxSelection
  | vaccineEffTest
  | contactTargetSelection
  | antiviralCancelTest
  | vaccineRewriteTest
  | travelBinomial
deriving DecidableEq, Fintype

/-- Which generator each call site draws from, read off the source. -/
def drawSource : DrawSite → RandomSource
  | .travelBinomial => RandomSource.gslRng
  | _ => RandomSource.mtRand

/-- Counterexample to C2 as stated: the simulation's stochastic decisions do
not all route through a single generator stream — the travel step's binomial
draw uses the GSL generator while the contact machinery uses the
Mersenne-Twister member. -/
theorem not_single_random_stream :
    ¬ ∃ g : RandomSource, ∀ s : DrawSite, drawSource s = g := by decide

/-- C2 (amended).  The stochastic decisions partition over exactly two
generator streams: every draw uses the `MTRand rand_` member except the
travel step's binomial draw, which uses the separately allocated GSL
generator `randGenerator_`; reproducibility therefore requires fixing both
streams, not one seed. -/
theorem drawSource_partition :
    ∀ s : DrawSite, drawSource s =
      if s = DrawSite.travelBinomial then RandomSource.gslRng else RandomSource.mtRand := by
  intro s
  cases s <;> rfl

end PanFlu
